import Mathlib

/-!
Verification of the Soul Frame coordination core.

Shallow embedding of the Python sources under `src/soulframe/`:
floating-point values are modelled as exact rationals (`ℚ`), machine
integers as `Nat` with explicit `% 2 ^ 32` where the code masks, Python
dictionaries as association lists with replace-on-insert semantics, and
the filesystem (`path.exists()`) as a boolean oracle passed in.
-/

namespace Soulframe

/-- Face sample record, from `soulframe/shared/types.py` (`FaceData`). -/
structure FaceData where
  frame_counter : Nat
  num_faces : Nat
  face_distance_cm : ℚ
  gaze_screen_x : ℚ
  gaze_screen_y : ℚ
  gaze_confidence : ℚ
  head_yaw : ℚ
  head_pitch : ℚ
  timestamp_ns : Nat
deriving DecidableEq, Repr

/-- Default-constructed `FaceData()` (all fields zero). -/
def FaceData.default : FaceData :=
  { frame_counter := 0, num_faces := 0, face_distance_cm := 0
    gaze_screen_x := 0, gaze_screen_y := 0, gaze_confidence := 0
    head_yaw := 0, head_pitch := 0, timestamp_ns := 0 }

/-! ### Seqlock IPC, from `soulframe/shared/ipc.py`

The 44-byte shared region is modelled as the seqlock counter plus the
payload record; `struct.pack`/`struct.unpack` of the fixed layout is the
identity on the record. -/

/-- Shared-memory region contents: 4-byte seqlock counter + payload. -/
structure ShmState where
  seq : Nat
  payload : FaceData
deriving DecidableEq, Repr

/-- Region as initialised by `VisionShmWriter.__init__` (counter 0). -/
def ShmState.init : ShmState :=
  { seq := 0, payload := FaceData.default }

/-- `VisionShmWriter.write`: increment the counter to odd, write the
payload (substituting `time_ns()` for a zero timestamp, per
`data.timestamp_ns or time.time_ns()`), increment the counter back to
even.  `now` stands for `time.time_ns()`. -/
def ShmState.write (s : ShmState) (data : FaceData) (now : Nat) : ShmState :=
  let seq1 := (s.seq + 1) % 2 ^ 32
  let payload := { data with
    timestamp_ns := if data.timestamp_ns = 0 then now else data.timestamp_ns }
  let seq2 := (seq1 + 1) % 2 ^ 32
  { seq := seq2, payload := payload }

/-- Reader-side state: the frame counter of the last sample returned
(`VisionShmReader._last_frame`). -/
structure ReaderState where
  last_frame : Option Nat
deriving DecidableEq, Repr

/-- `VisionShmReader.read`, parametrised by the two counter loads
(`seq1`, `seq2`) and the payload copied between them, so that torn
observations are expressible.  Returns the parsed sample (or `none` for
"no new data") and the updated reader state. -/
def readObserved (seq1 seq2 : Nat) (raw : FaceData) (r : ReaderState) :
    Option FaceData × ReaderState :=
  if seq1 % 2 = 1 then
    (none, r)
  else if seq1 ≠ seq2 then
    (none, r)
  else if r.last_frame = some raw.frame_counter then
    (none, r)
  else
    (some raw, { last_frame := some raw.frame_counter })

/-- A quiescent read (no concurrent writer): both counter loads observe
the committed counter and the payload is the committed payload. -/
def ShmState.read (s : ShmState) (r : ReaderState) : Option FaceData × ReaderState :=
  readObserved s.seq s.seq s.payload r

/-! ### Distance factor, from `InteractionModel._compute_distance_factor`
in `soulframe/brain/interaction_model.py`. -/

/-- `InteractionModel._compute_distance_factor`; `near`/`far` are the
instance fields `_near_cm`/`_far_cm`. -/
def compute_distance_factor (face_data : FaceData) (near far : ℚ) : ℚ :=
  if face_data.num_faces = 0 then 0
  else
    let d := face_data.face_distance_cm
    if near ≥ far then
      if d ≤ near then 1 else 0
    else if d ≤ near then 1
    else if d ≥ far then 0
    else 1 - (d - near) / (far - near)

/-! ### Association lists

Python dictionaries are modelled as ordered association lists: update in
place on an existing key, append on a new one, matching `dict` insertion
order. -/

/-- Dictionary lookup (`d.get(k)`). -/
def alistGet {α : Type} (k : String) : List (String × α) → Option α
  | [] => none
  | (k2, v) :: rest => if k2 = k then some v else alistGet k rest

/-- Dictionary store (`d[k] = v`). -/
def alistInsert {α : Type} (k : String) (v : α) :
    List (String × α) → List (String × α)
  | [] => [(k, v)]
  | (k2, v2) :: rest =>
      if k2 = k then (k, v) :: rest else (k2, v2) :: alistInsert k v rest

/-- Dwell-timer lookup with default 0 (`d.get(k, 0.0)`). -/
def timersGet (k : String) (timers : List (String × ℚ)) : ℚ :=
  (alistGet k timers).getD 0

/-! ### Geometry, from `soulframe/shared/geometry.py`. -/

/-- `point_in_polygon`: ray-casting point-in-polygon test.  Python's
short-circuiting `and` never evaluates the division when
`(yi > py) == (yj > py)`; rational division by zero in that dead operand
is harmless because the conjunction is already false. -/
def point_in_polygon (px py : ℚ) (polygon : List (ℚ × ℚ)) : Bool :=
  let n := polygon.length
  if n < 3 then false
  else
    (List.range n).foldl
      (fun inside i =>
        let p_i := polygon.getD i (0, 0)
        let p_j := polygon.getD (if i = 0 then n - 1 else i - 1) (0, 0)
        if (decide (p_i.2 > py) != decide (p_j.2 > py)) &&
            decide (px < (p_j.1 - p_i.1) * (py - p_i.2) / (p_j.2 - p_i.2) + p_i.1)
        then !inside else inside)
      false

/-- `region_hit_test`. -/
def region_hit_test (gaze_x gaze_y : ℚ) (points_normalized : List (ℚ × ℚ)) :
    Bool :=
  point_in_polygon gaze_x gaze_y points_normalized

/-! ### Region metadata, from `soulframe/shared/types.py`.

`HeartbeatConfig.curve` and `AmbientAudioConfig.fade_curve` hold the
distance-to-volume function resolved by `get_curve` from the configured
curve name (`soulframe/audio/curves.py`); `none` models an unknown name,
for which `get_curve` raises `ValueError` and the callers fall back. -/

/-- `RegionShape` (only the point list is consulted by the model). -/
structure RegionShape where
  points_normalized : List (ℚ × ℚ)

/-- `GazeTrigger`. -/
structure GazeTrigger where
  dwell_time_ms : ℚ
  min_confidence : ℚ

/-- `HeartbeatConfig`. -/
structure HeartbeatConfig where
  file : String
  loop : Bool
  bass_boost : Bool
  fade_in_ms : ℚ
  max_distance_cm : ℚ
  min_distance_cm : ℚ
  curve : Option (ℚ → ℚ → ℚ → ℚ)

/-- `Region` (visual effects drive only display commands and are not
modelled). -/
structure Region where
  id : String
  shape : RegionShape
  gaze_trigger : GazeTrigger
  heartbeat : Option HeartbeatConfig

/-- `linear_curve` from `soulframe/audio/curves.py`. -/
def linear_curve (distance_cm max_dist min_dist : ℚ) : ℚ :=
  if max_dist ≤ min_dist then
    if distance_cm ≤ min_dist then 1 else 0
  else if distance_cm ≤ min_dist then 1
  else if distance_cm ≥ max_dist then 0
  else
    let t := (distance_cm - min_dist) / (max_dist - min_dist)
    max 0 (min 1 (1 - t))

/-- `ease_in_out_curve` (smoothstep) from `soulframe/audio/curves.py`. -/
def ease_in_out_curve (distance_cm max_dist min_dist : ℚ) : ℚ :=
  if max_dist ≤ min_dist then
    if distance_cm ≤ min_dist then 1 else 0
  else if distance_cm ≤ min_dist then 1
  else if distance_cm ≥ max_dist then 0
  else
    let t := (distance_cm - min_dist) / (max_dist - min_dist)
    let smooth := t * t * (3 - 2 * t)
    max 0 (min 1 (1 - smooth))

/-! ### Interaction model, from `soulframe/brain/interaction_model.py`. -/

/-- Output of one `InteractionModel.update` call (`InteractionResult`). -/
structure InteractionResult where
  active_regions : List String
  dwell_regions : List String
  distance_factor : ℚ
  min_active_confidence : ℚ

/-- Mutable state of an `InteractionModel` instance. -/
structure InteractionModel where
  dwell_timers : List (String × ℚ)
  prev_active : List String
  near_cm : ℚ
  far_cm : ℚ

/-- `InteractionModel.__init__` (defaults `CLOSE_INTERACTION_DISTANCE_CM`
= 80 and `PRESENCE_DISTANCE_CM` = 300 from `soulframe/config.py`). -/
def InteractionModel.init : InteractionModel :=
  { dwell_timers := [], prev_active := [], near_cm := 80, far_cm := 300 }

/-- `InteractionModel.reset`. -/
def InteractionModel.reset (s : InteractionModel) : InteractionModel :=
  { s with dwell_timers := [], prev_active := [] }

/-- `InteractionModel.set_distance_thresholds`. -/
def InteractionModel.set_distance_thresholds (s : InteractionModel)
    (near_cm far_cm : ℚ) : InteractionModel :=
  { s with near_cm := near_cm, far_cm := far_cm }

/-- Loop body of `InteractionModel.update` for one region: hit-test,
dwell-timer accounting, and dwell-threshold check.  The accumulator is
`(active_ids, dwell_ids, dwell_timers)`. -/
def imStep (face_data : FaceData) (dt : ℚ)
    (acc : List String × List String × List (String × ℚ)) (region : Region) :
    List String × List String × List (String × ℚ) :=
  let (active_ids, dwell_ids, timers) := acc
  if region.shape.points_normalized = [] then acc
  else if region_hit_test face_data.gaze_screen_x face_data.gaze_screen_y
      region.shape.points_normalized then
    let min_conf := region.gaze_trigger.min_confidence
    let timers2 :=
      if face_data.gaze_confidence ≥ min_conf then
        alistInsert region.id (timersGet region.id timers + dt) timers
      else alistInsert region.id 0 timers
    let dwell_threshold_s := region.gaze_trigger.dwell_time_ms / 1000
    let dwell2 :=
      if timersGet region.id timers2 ≥ dwell_threshold_s ∧
          face_data.gaze_confidence ≥ min_conf
      then dwell_ids ++ [region.id] else dwell_ids
    (active_ids ++ [region.id], dwell2, timers2)
  else acc

/-- `InteractionModel.update`: hit-test all regions, account dwell,
drop timers of regions the gaze has left, and report the result. -/
def InteractionModel.update (s : InteractionModel) (face_data : FaceData)
    (regions : List Region) (dt : ℚ) :
    InteractionResult × InteractionModel :=
  let step :=
    if face_data.num_faces > 0 ∧ face_data.gaze_confidence > 0 then
      regions.foldl (imStep face_data dt) ([], [], s.dwell_timers)
    else ([], [], s.dwell_timers)
  let active_ids := step.1
  let dwell_ids := step.2.1
  let timers2 := step.2.2.filter
    (fun kv => decide (kv.1 ∈ active_ids ∨ kv.1 ∉ s.prev_active))
  let min_conf :=
    if dwell_ids ≠ [] then
      let confs := regions.filterMap
        (fun r => if r.id ∈ dwell_ids then some r.gaze_trigger.min_confidence
                  else none)
      match confs with
      | [] => 0
      | c :: rest => rest.foldl min c
    else 0
  ({ active_regions := active_ids
     dwell_regions := dwell_ids
     distance_factor := compute_distance_factor face_data s.near_cm s.far_cm
     min_active_confidence := min_conf },
   { s with dwell_timers := timers2, prev_active := active_ids })

/-- A sequence of `InteractionModel.update` calls; each step carries
`(face_data, regions, dt)`. -/
def InteractionModel.updateRun (s : InteractionModel)
    (steps : List (FaceData × List Region × ℚ)) : InteractionModel :=
  steps.foldl (fun s2 step => (s2.update step.1 step.2.1 step.2.2).2) s

/-! ### Audio stream, from `soulframe/audio/audio_stream.py`

`self._data` is the decoded stereo PCM (list of frames), kept abstract
as rational sample pairs; loading, channel duplication and the bass
filter happen before construction and do not affect the volume/fade
state the claims are about. -/

/-- Playback and fade state of one `AudioStream`. -/
structure AudioStream where
  data : List (ℚ × ℚ)
  loop : Bool
  position : Nat
  finished : Bool
  volume : ℚ
  fade_target : ℚ
  fade_rate : ℚ
  fading : Bool
deriving DecidableEq, Repr

/-- `max(0.0, min(1.0, x))`, the clamp used throughout the stream code. -/
def clamp01 (x : ℚ) : ℚ := max 0 (min 1 x)

/-- Stream as constructed by `AudioStream.__init__` from decoded data. -/
def AudioStream.mk0 (data : List (ℚ × ℚ)) (loop : Bool) : AudioStream :=
  { data := data, loop := loop, position := 0, finished := data.length = 0
    volume := 0, fade_target := 0, fade_rate := 0, fading := false }

/-- `AudioStream.set_volume`. -/
def AudioStream.set_volume (st : AudioStream) (volume : ℚ) : AudioStream :=
  { st with volume := clamp01 volume, fade_target := clamp01 volume, fading := false }

/-- `AudioStream.set_fade`. -/
def AudioStream.set_fade (st : AudioStream) (target_volume duration_ms : ℚ) :
    AudioStream :=
  let target := clamp01 target_volume
  if duration_ms ≤ 0 then st.set_volume target
  else if |st.volume - target| < 1 / 1000000 then
    { st with volume := target, fade_target := target, fading := false }
  else
    { st with fade_target := target
              fade_rate := (target - st.volume) / (duration_ms / 1000)
              fading := true }

/-- `AudioStream.update`: advance the fade by `dt` seconds, clamping on
overshoot and finally clamping to `[0, 1]`. -/
def AudioStream.update (st : AudioStream) (dt : ℚ) : AudioStream :=
  if st.fading then
    let v := st.volume + st.fade_rate * dt
    if st.fade_rate > 0 ∧ v ≥ st.fade_target then
      { st with volume := clamp01 st.fade_target, fading := false }
    else if st.fade_rate < 0 ∧ v ≤ st.fade_target then
      { st with volume := clamp01 st.fade_target, fading := false }
    else
      { st with volume := clamp01 v }
  else st

/-- A sequence of `update` calls. -/
def AudioStream.updateMany (st : AudioStream) (dts : List ℚ) : AudioStream :=
  dts.foldl AudioStream.update st

/-- `AudioStream.is_active`. -/
def AudioStream.is_active (st : AudioStream) : Bool :=
  if st.finished then false
  else if st.volume > 0 then true
  else if st.fading ∧ st.fade_target > 0 then true
  else false

/-! ### Playback, from `AudioStream.get_samples`. -/

/-- A zero-filled stereo buffer (`np.zeros((n, 2))`). -/
def zeroFrames (n : Nat) : List (ℚ × ℚ) :=
  List.replicate n (0, 0)

/-- The `while remaining > 0` loop of `AudioStream.get_samples`: copy
chunks from the play cursor, wrapping when looping, or break and leave
the remainder zero-filled (setting the finished flag) when not looping.
Returns the frames produced, the final cursor, and whether the finished
flag was set.  The `available = 0` fall-through with empty data is
unreachable: the caller guards `num_frames == 0`. -/
def getSamplesLoop (data : List (ℚ × ℚ)) (isLoop : Bool) :
    Nat → Nat → List (ℚ × ℚ) × Nat × Bool
  | 0, pos => ([], pos, false)
  | remaining + 1, pos =>
      let len := data.length
      let adjusted :=
        if len - pos = 0 then
          (if isLoop then (0, len) else (pos, 0))
        else (pos, len - pos)
      let pos1 := adjusted.1
      let available := adjusted.2
      if h : available = 0 then
        (zeroFrames (remaining + 1), pos1, true)
      else
        let chunk := min (remaining + 1) available
        let out := (data.drop pos1).take chunk
        let pos2 := pos1 + chunk
        let pos3 := if len ≤ pos2 ∧ isLoop then 0 else pos2
        let next := getSamplesLoop data isLoop (remaining + 1 - chunk) pos3
        (out ++ next.1, next.2)
termination_by remaining _ => remaining
decreasing_by
  simp_wf
  exact Nat.pos_of_ne_zero h

/-- `AudioStream.get_samples`. -/
def AudioStream.get_samples (st : AudioStream) (num_frames : Nat) :
    List (ℚ × ℚ) × AudioStream :=
  if st.data.length = 0 then
    (zeroFrames num_frames, { st with finished := true })
  else
    let r := getSamplesLoop st.data st.loop num_frames st.position
    (r.1, { st with position := r.2.1, finished := st.finished || r.2.2 })

/-! ### Audio mixer, from `soulframe/audio/mixer.py`.

The stream dictionary is an association list; the mutex serialises the
callback and command threads and is not part of the sequential model.
`id(old)` (the CPython object identity used in the retiring slot name)
is passed in as `oid`. -/

/-- Mixer state: named streams plus the master volume. -/
structure AudioMixer where
  streams : List (String × AudioStream)
  master_volume : ℚ

/-- `AudioMixer.__init__`. -/
def AudioMixer.init : AudioMixer :=
  { streams := [], master_volume := 1 }

/-- The retiring slot key built by `add_stream`
(`f"_retiring_{name}_{id(old)}"`). -/
def retiringName (name : String) (oid : Nat) : String :=
  "_retiring_" ++ name ++ "_" ++ toString oid

/-- `AudioMixer.add_stream`: an active stream under the same name is
re-keyed to a retiring slot with a 200 ms fade-out before the new
stream is installed. -/
def AudioMixer.add_stream (m : AudioMixer) (name : String)
    (stream : AudioStream) (oid : Nat) : AudioMixer :=
  match alistGet name m.streams with
  | some old =>
      if old.is_active then
        let retired :=
          alistInsert (retiringName name oid) (old.set_fade 0 200) m.streams
        { m with streams := alistInsert name stream retired }
      else
        { m with streams := alistInsert name stream m.streams }
  | none => { m with streams := alistInsert name stream m.streams }

/-- `np.clip(_, -1.0, 1.0)` on one sample. -/
def clipSample (x : ℚ) : ℚ :=
  max (-1) (min 1 x)

/-- Loop body of `AudioMixer.mix` for one named stream: advance its
fade, skip it when inactive or silent, otherwise mix its samples scaled
by its volume into the buffer. -/
def mixStep (dt : ℚ) (num_frames : Nat)
    (acc : List (ℚ × ℚ) × List (String × AudioStream))
    (named : String × AudioStream) :
    List (ℚ × ℚ) × List (String × AudioStream) :=
  let stream1 := named.2.update dt
  if ¬ stream1.is_active then
    (acc.1, acc.2 ++ [(named.1, stream1)])
  else if stream1.volume ≤ 0 then
    (acc.1, acc.2 ++ [(named.1, stream1)])
  else
    let r := stream1.get_samples num_frames
    (acc.1.zipWith
      (fun b sample =>
        (b.1 + sample.1 * stream1.volume, b.2 + sample.2 * stream1.volume))
      r.1,
     acc.2 ++ [(named.1, r.2)])

/-- `AudioMixer.mix`: advance fades, sum scaled samples, apply the
master volume, and clamp every output sample to `[-1, 1]`. -/
def AudioMixer.mix (m : AudioMixer) (num_frames : Nat) (sample_rate : ℚ) :
    List (ℚ × ℚ) × AudioMixer :=
  let dt := (num_frames : ℚ) / sample_rate
  let r := m.streams.foldl (mixStep dt num_frames) (zeroFrames num_frames, [])
  let out := r.1.map (fun fr =>
    (clipSample (fr.1 * m.master_volume), clipSample (fr.2 * m.master_volume)))
  (out, { m with streams := r.2 })

/-- `AudioMixer.remove_inactive`: drop streams that are inactive with
volume at most 0. -/
def AudioMixer.remove_inactive (m : AudioMixer) : AudioMixer :=
  let kept := m.streams.filter
    (fun kv => !(!kv.2.is_active && decide (kv.2.volume ≤ 0)))
  { m with streams := kept }

/-! ### Interaction state machine, from `soulframe/brain/state_machine.py`.

`time.monotonic()` bookkeeping (`_state_entry_time`) is not modelled: no
transition consults it.  The code computes `distance_cm = inf` when no
face is detected, but every comparison against it is guarded by
`face_detected`, so the raw `face_distance_cm` is passed instead. -/

/-- `InteractionState` from `soulframe/shared/types.py`. -/
inductive InteractionState
  | IDLE
  | PRESENCE
  | ENGAGED
  | CLOSE_INTERACTION
  | WITHDRAWING
deriving DecidableEq, Repr

/-- `GAZE_MIN_CONFIDENCE` from `soulframe/config.py`. -/
def GAZE_MIN_CONFIDENCE : ℚ := 3/5

/-- `PRESENCE_LOST_TIMEOUT_S` from `soulframe/config.py`. -/
def PRESENCE_LOST_TIMEOUT_S : ℚ := 3

/-- `IDLE_FACE_LOST_TIMEOUT_S` from `soulframe/config.py`. -/
def IDLE_FACE_LOST_TIMEOUT_S : ℚ := 5

/-- `WITHDRAW_GAZE_AWAY_TIMEOUT_S` from `soulframe/config.py`. -/
def WITHDRAW_GAZE_AWAY_TIMEOUT_S : ℚ := 8

/-- `IDLE_IMAGE_CYCLE_SECONDS` from `soulframe/config.py`. -/
def IDLE_IMAGE_CYCLE_SECONDS : ℚ := 300

/-- `WITHDRAW_FADE_DURATION_S` from `soulframe/config.py`. -/
def WITHDRAW_FADE_DURATION_S : ℚ := 4

/-- Mutable state of an `InteractionStateMachine` instance. -/
structure InteractionStateMachine where
  state : InteractionState
  face_lost_timer : ℚ
  gaze_away_timer : ℚ
  withdraw_timer : ℚ
  idle_image_timer : ℚ
  should_cycle_image : Bool
  presence_distance_cm : ℚ
  close_distance_cm : ℚ
  withdraw_duration_s : ℚ
deriving DecidableEq, Repr

/-- `InteractionStateMachine.__init__` (config defaults). -/
def InteractionStateMachine.init : InteractionStateMachine :=
  { state := InteractionState.IDLE
    face_lost_timer := 0, gaze_away_timer := 0
    withdraw_timer := 0, idle_image_timer := 0
    should_cycle_image := false
    presence_distance_cm := 300, close_distance_cm := 80
    withdraw_duration_s := WITHDRAW_FADE_DURATION_S }

/-- `InteractionStateMachine.set_distance_thresholds`. -/
def InteractionStateMachine.set_distance_thresholds
    (s : InteractionStateMachine) (presence_cm close_cm : ℚ) :
    InteractionStateMachine :=
  { s with presence_distance_cm := presence_cm, close_distance_cm := close_cm }

/-- `InteractionStateMachine.set_withdraw_duration` (`max(0.1, d)`). -/
def InteractionStateMachine.set_withdraw_duration
    (s : InteractionStateMachine) (duration_s : ℚ) : InteractionStateMachine :=
  { s with withdraw_duration_s := max (1/10) duration_s }

/-- `InteractionStateMachine._set_state`: record the transition, clear
the cycle flag, and reset the timers the target state owns; the
gaze-away timer is reset only on entering ENGAGED from a state other
than CLOSE_INTERACTION. -/
def InteractionStateMachine.set_state (s : InteractionStateMachine)
    (new_state : InteractionState) : InteractionStateMachine :=
  let old := s.state
  if old = new_state then s
  else
    let s1 := { s with state := new_state, should_cycle_image := false }
    if new_state = InteractionState.IDLE then
      { s1 with idle_image_timer := 0 }
    else if new_state = InteractionState.ENGAGED ∧
        old ≠ InteractionState.CLOSE_INTERACTION then
      { s1 with gaze_away_timer := 0 }
    else if new_state = InteractionState.WITHDRAWING then
      { s1 with withdraw_timer := 0 }
    else s1

/-- `InteractionStateMachine._update_idle`. -/
def InteractionStateMachine.update_idle (s : InteractionStateMachine)
    (face_detected : Bool) (distance_cm dt : ℚ) : InteractionStateMachine :=
  if face_detected ∧ distance_cm < s.presence_distance_cm then
    s.set_state InteractionState.PRESENCE
  else
    let s1 := { s with idle_image_timer := s.idle_image_timer + dt }
    if s1.idle_image_timer ≥ IDLE_IMAGE_CYCLE_SECONDS then
      { s1 with should_cycle_image := true, idle_image_timer := 0 }
    else
      { s1 with should_cycle_image := false }

/-- `InteractionStateMachine._update_presence`. -/
def InteractionStateMachine.update_presence (s : InteractionStateMachine)
    (face_detected : Bool) (distance_cm : ℚ) (dwell_regions : List String) :
    InteractionStateMachine :=
  if s.face_lost_timer ≥ PRESENCE_LOST_TIMEOUT_S then
    s.set_state InteractionState.WITHDRAWING
  else if face_detected ∧ distance_cm ≥ s.presence_distance_cm then
    s.set_state InteractionState.WITHDRAWING
  else if dwell_regions ≠ [] then
    s.set_state InteractionState.ENGAGED
  else s

/-- `InteractionStateMachine._update_engaged`. -/
def InteractionStateMachine.update_engaged (s : InteractionStateMachine)
    (face_detected : Bool) (distance_cm : ℚ) : InteractionStateMachine :=
  if s.face_lost_timer ≥ IDLE_FACE_LOST_TIMEOUT_S then
    s.set_state InteractionState.WITHDRAWING
  else if face_detected ∧ distance_cm < s.close_distance_cm then
    s.set_state InteractionState.CLOSE_INTERACTION
  else if s.gaze_away_timer ≥ WITHDRAW_GAZE_AWAY_TIMEOUT_S then
    s.set_state InteractionState.WITHDRAWING
  else s

/-- `InteractionStateMachine._update_close_interaction`: return to
ENGAGED when the distance exceeds `min(1.5 * close, presence)`. -/
def InteractionStateMachine.update_close_interaction
    (s : InteractionStateMachine) (face_detected : Bool) (distance_cm : ℚ) :
    InteractionStateMachine :=
  if s.face_lost_timer ≥ IDLE_FACE_LOST_TIMEOUT_S then
    s.set_state InteractionState.WITHDRAWING
  else if s.gaze_away_timer ≥ WITHDRAW_GAZE_AWAY_TIMEOUT_S then
    s.set_state InteractionState.WITHDRAWING
  else
    let hysteresis_cm := min (s.close_distance_cm * (3/2)) s.presence_distance_cm
    if face_detected ∧ distance_cm > hysteresis_cm then
      s.set_state InteractionState.ENGAGED
    else s

/-- `InteractionStateMachine._update_withdrawing`. -/
def InteractionStateMachine.update_withdrawing (s : InteractionStateMachine)
    (dt : ℚ) : InteractionStateMachine :=
  let s1 := { s with withdraw_timer := s.withdraw_timer + dt }
  if s1.withdraw_timer ≥ s1.withdraw_duration_s then
    s1.set_state InteractionState.IDLE
  else s1

/-- Timer phase of `InteractionStateMachine.update`: the face-lost and
gaze-away running timers, with the per-region gaze threshold when in
ENGAGED/CLOSE_INTERACTION and `min_active_confidence > 0`. -/
def InteractionStateMachine.update_timers (s : InteractionStateMachine)
    (face_data : FaceData) (active_regions : List String) (dt : ℚ)
    (min_active_confidence : ℚ) : InteractionStateMachine :=
  let face_detected : Bool := face_data.num_faces > 0
  let gaze_confidence := if face_detected then face_data.gaze_confidence else 0
  let s1 :=
    if face_detected then { s with face_lost_timer := 0 }
    else { s with face_lost_timer := s.face_lost_timer + dt }
  let gaze_threshold :=
    if (s1.state = InteractionState.ENGAGED ∨
        s1.state = InteractionState.CLOSE_INTERACTION) ∧
        min_active_confidence > 0
    then min_active_confidence else GAZE_MIN_CONFIDENCE
  if active_regions ≠ [] ∧ gaze_confidence ≥ gaze_threshold then
    { s1 with gaze_away_timer := 0 }
  else
    { s1 with gaze_away_timer := s1.gaze_away_timer + dt }

/-- `InteractionStateMachine.update`: advance the running timers, then
dispatch on the current state. -/
def InteractionStateMachine.update (s : InteractionStateMachine)
    (face_data : FaceData) (active_regions : List String) (dt : ℚ)
    (dwell_regions : List String) (min_active_confidence : ℚ) :
    InteractionStateMachine :=
  let face_detected : Bool := face_data.num_faces > 0
  let distance_cm := face_data.face_distance_cm
  let s2 := s.update_timers face_data active_regions dt min_active_confidence
  match s2.state with
  | InteractionState.IDLE => s2.update_idle face_detected distance_cm dt
  | InteractionState.PRESENCE =>
      s2.update_presence face_detected distance_cm dwell_regions
  | InteractionState.ENGAGED => s2.update_engaged face_detected distance_cm
  | InteractionState.CLOSE_INTERACTION =>
      s2.update_close_interaction face_detected distance_cm
  | InteractionState.WITHDRAWING => s2.update_withdrawing dt

/-! ### Brain coordinator, from `soulframe/brain/coordinator.py`.

Only the audio-queue side is modelled: every `audio_q.put` becomes an
`AudioCommand`; `display_q.put` calls carry no audio state and are
dropped.  `image_mgr.get_audio_path(f)` returning a path that exists is
modelled by the oracle `audioPathOk f`; the gallery is a single image,
so idle cycling keeps the current image. -/

/-- Audio commands (`CommandType` plus the parameters the coordinator
sends with them). -/
inductive AudioCommand
  | PLAY_AMBIENT (file_path : String) (fade_ms : ℚ) (loop : Bool)
  | PLAY_HEARTBEAT (file_path : String) (region_id : String) (fade_ms : ℚ)
      (loop : Bool) (bass_boost : Bool)
  | STOP_HEARTBEAT (region_id : String) (fade_ms : ℚ)
  | SET_VOLUME (name : String) (volume : ℚ)
  | FADE_ALL (target_volume : ℚ) (fade_ms : ℚ)
  | STOP_ALL
deriving DecidableEq, Repr

/-- `AmbientAudioConfig` from `soulframe/shared/types.py`;
`fade_curve` is the resolved curve function (see the note on curves). -/
structure AmbientAudioConfig where
  file : String
  loop : Bool
  fade_in_distance_cm : ℚ
  fade_in_complete_cm : ℚ
  fade_curve : Option (ℚ → ℚ → ℚ → ℚ)

/-- `ImageMetadata` fields the coordinator consults. -/
structure ImageMeta where
  ambient : Option AmbientAudioConfig
  regions : List Region
  min_interaction_distance_cm : ℚ
  close_interaction_distance_cm : ℚ
  fade_in_ms : ℚ
  fade_out_ms : ℚ
  audio_crossfade_ms : ℚ

/-- `_GAZE_EPSILON` from `coordinator.py`. -/
def GAZE_EPSILON : ℚ := 5/1000

/-- `_VOLUME_EPSILON` from `coordinator.py`. -/
def VOLUME_EPSILON : ℚ := 1/100

/-- Audio commands of `_on_transition` (display commands dropped). -/
def onTransitionAudio (old new_state : InteractionState)
    (img : Option ImageMeta) (audioPathOk : String → Bool) :
    List AudioCommand :=
  if old = InteractionState.IDLE ∧ new_state = InteractionState.PRESENCE then
    match img with
    | some im =>
        match im.ambient with
        | some amb =>
            if amb.file ≠ "" ∧ audioPathOk amb.file then
              [AudioCommand.PLAY_AMBIENT amb.file 1000 amb.loop]
            else []
        | none => []
    | none => []
  else if old = InteractionState.PRESENCE ∧
      new_state = InteractionState.ENGAGED then []
  else if old = InteractionState.ENGAGED ∧
      new_state = InteractionState.CLOSE_INTERACTION then []
  else if old = InteractionState.CLOSE_INTERACTION ∧
      new_state = InteractionState.ENGAGED then []
  else if new_state = InteractionState.WITHDRAWING then
    let fade_ms :=
      match img with
      | some im =>
          if im.fade_out_ms ≠ 0 then im.fade_out_ms
          else WITHDRAW_FADE_DURATION_S * 1000
      | none => WITHDRAW_FADE_DURATION_S * 1000
    [AudioCommand.FADE_ALL 0 fade_ms]
  else if old = InteractionState.WITHDRAWING ∧
      new_state = InteractionState.IDLE then
    [AudioCommand.STOP_ALL]
  else []

/-- Change-detection state threaded through `_continuous_updates`
(`last_sent_gaze_x/y`, `last_sent_volume`, `started_heartbeats`,
`last_sent_hb_volumes`). -/
structure ContState where
  prev_gaze_x : ℚ
  prev_gaze_y : ℚ
  prev_volume : ℚ
  started_heartbeats : List (String × ℚ)
  last_sent_hb_volumes : List (String × ℚ)

/-- Initial change-detection state of `run_brain`. -/
def ContState.init : ContState :=
  { prev_gaze_x := 0, prev_gaze_y := 0, prev_volume := -1
    started_heartbeats := [], last_sent_hb_volumes := [] }

/-- The heartbeat volume `_continuous_updates` computes for a region:
its distance curve, or the interaction distance factor when the curve
name is unknown (`ValueError`/`TypeError` fallback). -/
def hbVolume (hb : HeartbeatConfig) (face_data : FaceData)
    (result : InteractionResult) : ℚ :=
  match hb.curve with
  | some f => f face_data.face_distance_cm hb.max_distance_cm hb.min_distance_cm
  | none => result.distance_factor

/-- Per-region heartbeat body of `_continuous_updates`: start a newly
dwelled heartbeat, then modulate its volume unless inside the fade-in
grace period or the change is below the epsilon.  The accumulator is
`(commands, started_heartbeats, last_sent_hb_volumes)`. -/
def hbStep (face_data : FaceData) (result : InteractionResult)
    (audioPathOk : String → Bool) (now : ℚ) (dwell_set : List String)
    (acc : List AudioCommand × List (String × ℚ) × List (String × ℚ))
    (region : Region) :
    List AudioCommand × List (String × ℚ) × List (String × ℚ) :=
  let (cmds, started, last_sent) := acc
  match region.heartbeat with
  | none => acc
  | some hb =>
      if hb.file = "" then acc
      else
        let stream_name := "heartbeat_" ++ region.id
        let startPart :=
          if region.id ∈ dwell_set ∧ alistGet region.id started = none ∧
              audioPathOk hb.file then
            (cmds ++ [AudioCommand.PLAY_HEARTBEAT hb.file region.id
                hb.fade_in_ms hb.loop hb.bass_boost],
             alistInsert region.id now started)
          else (cmds, started)
        let cmds1 := startPart.1
        let started1 := startPart.2
        match alistGet region.id started1 with
        | none => (cmds1, started1, last_sent)
        | some t0 =>
            let fade_grace_s := hb.fade_in_ms / 1000
            if now - t0 < fade_grace_s then (cmds1, started1, last_sent)
            else
              let hb_vol := hbVolume hb face_data result
              let prev_hb_vol := (alistGet stream_name last_sent).getD (-1)
              if |hb_vol - prev_hb_vol| ≤ VOLUME_EPSILON then
                (cmds1, started1, last_sent)
              else
                (cmds1 ++ [AudioCommand.SET_VOLUME stream_name hb_vol],
                 started1, alistInsert stream_name hb_vol last_sent)

/-- The trailing loop of `_continuous_updates`: stop heartbeats whose
regions are no longer dwelled and forget their tracking entries. -/
def hbStopLoop (started : List (String × ℚ)) (dwell_set : List String)
    (last_sent : List (String × ℚ)) :
    List AudioCommand × List (String × ℚ) × List (String × ℚ) :=
  let stopped := started.filter (fun kv => decide (kv.1 ∉ dwell_set))
  let cmds := stopped.map (fun kv => AudioCommand.STOP_HEARTBEAT kv.1 800)
  let started2 := started.filter (fun kv => decide (kv.1 ∈ dwell_set))
  let last2 := last_sent.filter
    (fun kv => decide (kv.1 ∉ stopped.map (fun s => "heartbeat_" ++ s.1)))
  (cmds, started2, last2)

/-- `_continuous_updates` (audio commands only; `SET_PARALLAX` is a
display command, but its change-detection state is still tracked). -/
def continuousUpdates (state : InteractionState) (face_data : FaceData)
    (result : InteractionResult) (image_metadata : Option ImageMeta)
    (audioPathOk : String → Bool) (ambient_started : Bool) (now : ℚ)
    (cs : ContState) : List AudioCommand × ContState :=
  if state = InteractionState.IDLE ∨ state = InteractionState.WITHDRAWING then
    ([], { cs with prev_volume := -1 })
  else
    let cs1 :=
      if |face_data.gaze_screen_x - cs.prev_gaze_x| > GAZE_EPSILON ∨
          |face_data.gaze_screen_y - cs.prev_gaze_y| > GAZE_EPSILON then
        { cs with prev_gaze_x := face_data.gaze_screen_x
                  prev_gaze_y := face_data.gaze_screen_y }
      else cs
    let ambientPart : List AudioCommand × ContState :=
      if ambient_started then
        match image_metadata with
        | some im =>
            match im.ambient with
            | some amb =>
                if amb.file ≠ "" then
                  let volume :=
                    match amb.fade_curve with
                    | some f => f face_data.face_distance_cm
                        amb.fade_in_distance_cm amb.fade_in_complete_cm
                    | none => 3/10 + 7/10 * result.distance_factor
                  if |volume - cs1.prev_volume| > VOLUME_EPSILON then
                    ([AudioCommand.SET_VOLUME "ambient" volume],
                     { cs1 with prev_volume := volume })
                  else ([], cs1)
                else ([], cs1)
            | none => ([], cs1)
        | none => ([], cs1)
      else ([], cs1)
    let cs2 := ambientPart.2
    let hbPart : List AudioCommand × ContState :=
      if state = InteractionState.ENGAGED ∨
          state = InteractionState.CLOSE_INTERACTION then
        match image_metadata with
        | some im =>
            if im.regions.isEmpty = false then
              let dwell_set := result.dwell_regions
              let folded := im.regions.foldl
                (hbStep face_data result audioPathOk now dwell_set)
                ([], cs2.started_heartbeats, cs2.last_sent_hb_volumes)
              let stopPart := hbStopLoop folded.2.1 dwell_set folded.2.2
              (folded.1 ++ stopPart.1,
               { cs2 with started_heartbeats := stopPart.2.1
                          last_sent_hb_volumes := stopPart.2.2 })
            else ([], cs2)
        | none => ([], cs2)
      else ([], cs2)
    (ambientPart.1 ++ hbPart.1, hbPart.2)

/-- Whether the current image has an ambient file configured
(`current_image and current_image.ambient and current_image.ambient.file`). -/
def imgHasAmbientFile (img : Option ImageMeta) : Bool :=
  match img with
  | some im =>
      match im.ambient with
      | some amb => decide (amb.file ≠ "")
      | none => false
  | none => false

/-- `_apply_image_thresholds`. -/
def applyImageThresholds (img : Option ImageMeta)
    (fsm : InteractionStateMachine) (im : InteractionModel) :
    InteractionStateMachine × InteractionModel :=
  match img with
  | none => (fsm, im)
  | some meta =>
      ((fsm.set_distance_thresholds meta.min_interaction_distance_cm
          meta.close_interaction_distance_cm).set_withdraw_duration
        (if meta.fade_out_ms ≠ 0 then meta.fade_out_ms / 1000
         else WITHDRAW_FADE_DURATION_S),
       im.set_distance_thresholds meta.close_interaction_distance_cm
         meta.min_interaction_distance_cm)

/-- Per-session state of the `run_brain` loop. -/
structure BrainState where
  fsm : InteractionStateMachine
  im : InteractionModel
  prev_state : InteractionState
  ambient_started : Bool
  cont : ContState

/-- `run_brain` start-up state: fresh machine and model with the first
image's thresholds applied. -/
def BrainState.init (img : Option ImageMeta) : BrainState :=
  let applied := applyImageThresholds img InteractionStateMachine.init
    InteractionModel.init
  { fsm := applied.1, im := applied.2
    prev_state := InteractionState.IDLE
    ambient_started := false, cont := ContState.init }

/-- One iteration of the `run_brain` main loop (audio commands only):
interaction-model update (empty regions while WITHDRAWING), FSM update,
transition commands and `ambient_started` bookkeeping, continuous
updates, and idle image cycling.  `imagePathOk` models
`get_image_path()` resolving for `_send_crossfade_image`; with a
single-image gallery `next_image` keeps the current image. -/
def brainTick (img : Option ImageMeta) (audioPathOk : String → Bool)
    (imagePathOk : Bool) (face_data : FaceData) (dt now : ℚ)
    (bs : BrainState) : List AudioCommand × BrainState :=
  let regions := match img with | some im => im.regions | none => []
  let upd :=
    if bs.fsm.state = InteractionState.WITHDRAWING then
      bs.im.update face_data [] dt
    else bs.im.update face_data regions dt
  let result := upd.1
  let im2 := upd.2
  let fsm2 := bs.fsm.update face_data result.active_regions dt
    result.dwell_regions result.min_active_confidence
  let new_state := fsm2.state
  let transCmds :=
    if new_state ≠ bs.prev_state then
      onTransitionAudio bs.prev_state new_state img audioPathOk
    else []
  let ambient1 :=
    if new_state ≠ bs.prev_state ∧ bs.prev_state = InteractionState.IDLE ∧
        new_state = InteractionState.PRESENCE ∧ imgHasAmbientFile img = true
    then true else bs.ambient_started
  let resetToIdle :=
    new_state ≠ bs.prev_state ∧
    bs.prev_state = InteractionState.WITHDRAWING ∧
    new_state = InteractionState.IDLE
  let im3 := if resetToIdle then im2.reset else im2
  let cont1 :=
    if resetToIdle then
      { bs.cont with started_heartbeats := [], last_sent_hb_volumes := [] }
    else bs.cont
  let ambient2 := if resetToIdle then false else ambient1
  let contPart := continuousUpdates new_state face_data result img
    audioPathOk ambient2 now cont1
  if fsm2.should_cycle_image then
    let cycleCmds :=
      match img with
      | some im =>
          if imagePathOk then [AudioCommand.FADE_ALL 0 im.audio_crossfade_ms]
          else []
      | none => []
    let applied := applyImageThresholds img fsm2 im3.reset
    (transCmds ++ contPart.1 ++ cycleCmds,
     { fsm := applied.1, im := applied.2, prev_state := new_state
       ambient_started := false
       cont := { contPart.2 with
                 started_heartbeats := [], last_sent_hb_volumes := [] } })
  else
    (transCmds ++ contPart.1,
     { fsm := fsm2, im := im3, prev_state := new_state
       ambient_started := ambient2, cont := contPart.2 })

/-- A sequence of brain ticks; each tick carries `(face_data, dt, now)`
and the emitted audio commands are concatenated in order. -/
def brainRun (img : Option ImageMeta) (audioPathOk : String → Bool)
    (imagePathOk : Bool) (ticks : List (FaceData × ℚ × ℚ))
    (bs : BrainState) : List AudioCommand × BrainState :=
  ticks.foldl
    (fun acc tick =>
      let r := brainTick img audioPathOk imagePathOk tick.1 tick.2.1
        tick.2.2 acc.2
      (acc.1 ++ r.1, r.2))
    ([], bs)

/-- An image whose metadata configures an ambient file (the file itself
may be missing on disk: see `audioPathOk`). -/
def missingAmbientImage : ImageMeta :=
  { ambient := some
      { file := "ambient.wav", loop := true
        fade_in_distance_cm := 200, fade_in_complete_cm := 100
        fade_curve := some linear_curve }
    regions := []
    min_interaction_distance_cm := 300, close_interaction_distance_cm := 80
    fade_in_ms := 2000, fade_out_ms := 2000, audio_crossfade_ms := 3000 }

/-- A face sample within presence distance. -/
def presenceFace : FaceData :=
  { FaceData.default with
    num_faces := 1, face_distance_cm := 250, gaze_confidence := 9/10 }

/-- A heartbeat configuration used as concrete input. -/
def sampleHeartbeat : HeartbeatConfig :=
  { file := "hb.wav", loop := true, bass_boost := true, fade_in_ms := 2000
    max_distance_cm := 150, min_distance_cm := 30
    curve := some linear_curve }

/-- A region carrying `sampleHeartbeat`, used as concrete input. -/
def heartbeatRegion : Region :=
  { id := "r1"
    shape := { points_normalized := [(0, 0), (1, 0), (1, 1), (0, 1)] }
    gaze_trigger := { dwell_time_ms := 1500, min_confidence := 3/5 }
    heartbeat := some sampleHeartbeat }

/-- An image whose only region is `heartbeatRegion`. -/
def heartbeatImage : ImageMeta :=
  { ambient := none
    regions := [heartbeatRegion]
    min_interaction_distance_cm := 300, close_interaction_distance_cm := 80
    fade_in_ms := 2000, fade_out_ms := 2000, audio_crossfade_ms := 3000 }

/-- An interaction result with `heartbeatRegion` dwelled. -/
def sampleResult : InteractionResult :=
  { active_regions := ["r1"], dwell_regions := ["r1"]
    distance_factor := 1/2, min_active_confidence := 3/5 }

/-- Continuous-update state with the sample heartbeat started at 0. -/
def startedContState : ContState :=
  { ContState.init with started_heartbeats := [("r1", 0)] }

/-- A loaded, fully audible stream used as concrete input. -/
def sampleOldStream : AudioStream :=
  { data := [(0, 0)], loop := true, position := 0, finished := false
    volume := 1, fade_target := 1, fade_rate := 0, fading := false }

/-- A one-stream mixer used as concrete input. -/
def sampleMixer : AudioMixer :=
  { streams := [("amb", sampleOldStream)], master_volume := 1 }

/-- A unit-square region used as concrete input. -/
def squareRegion : Region :=
  { id := "r1"
    shape := { points_normalized := [(0, 0), (1, 0), (1, 1), (0, 1)] }
    gaze_trigger := { dwell_time_ms := 1500, min_confidence := 3/5 }
    heartbeat := none }

/-- A face sample gazing at the centre of the screen. -/
def centreGazeFace : FaceData :=
  { FaceData.default with
    num_faces := 1, face_distance_cm := 100
    gaze_screen_x := 1/2, gaze_screen_y := 1/2, gaze_confidence := 9/10 }

end Soulframe

namespace Soulframe

/-- C1: seqlock round-trip.  After the writer commits a payload whose
frame counter differs from the last one the reader returned, the next
quiescent read returns exactly that payload, and a further read with no
intervening write returns no new data; moreover any read observing an
odd first counter, two differing counters, or a repeated frame counter
returns no new data. -/
theorem seqlock_round_trip (s : ShmState) (d : FaceData) (now : Nat)
    (r : ReaderState) (seq1 seq2 : Nat) (raw : FaceData) (r2 : ReaderState)
    (heven : s.seq % 2 = 0)
    (hfresh : r.last_frame ≠ some d.frame_counter)
    (hts : d.timestamp_ns ≠ 0) :
    ((s.write d now).read r).1 = some d ∧
    ((s.write d now).read (((s.write d now).read r).2)).1 = none ∧
    (seq1 % 2 = 1 → (readObserved seq1 seq2 raw r2).1 = none) ∧
    (seq1 ≠ seq2 → (readObserved seq1 seq2 raw r2).1 = none) ∧
    (r2.last_frame = some raw.frame_counter →
      (readObserved seq1 seq2 raw r2).1 = none) := by
  have hseq : (s.write d now).seq % 2 = 0 := by
    show ((s.seq + 1) % 2 ^ 32 + 1) % 2 ^ 32 % 2 = 0
    omega
  have hpay : (s.write d now).payload = d := by
    simp [ShmState.write, hts]
  refine ⟨?_, ?_, ?_, ?_, ?_⟩
  · simp [ShmState.read, readObserved, hseq, hpay, hfresh]
  · simp [ShmState.read, readObserved, hseq, hpay, hfresh]
  · intro h
    simp [readObserved, h]
  · intro h
    rcases Nat.even_or_odd seq1 with he | ho
    · simp [readObserved, h, Nat.even_iff.mp he]
    · simp [readObserved, Nat.odd_iff.mp ho]
  · intro h
    rcases Nat.even_or_odd seq1 with he | ho
    · by_cases hne : seq1 = seq2
      · simp [readObserved, Nat.even_iff.mp he, hne, h]
      · simp [readObserved, Nat.even_iff.mp he, hne]
    · simp [readObserved, Nat.odd_iff.mp ho]

/-- Updating a stream that is not fading is a no-op. -/
theorem update_not_fading (st : AudioStream) (dt : ℚ) (h : st.fading = false) :
    st.update dt = st := by
  simp [AudioStream.update, h]

/-- A sequence of updates on a non-fading stream is a no-op. -/
theorem updateMany_not_fading (dts : List ℚ) (st : AudioStream)
    (h : st.fading = false) : st.updateMany dts = st := by
  induction dts with
  | nil => rfl
  | cons dt rest ih =>
      show (st.update dt).updateMany rest = st
      rw [update_not_fading st dt h]
      exact ih

/-- An upward fade reaches its target once the accumulated time covers
the remaining distance. -/
theorem updateMany_fade_up (dts : List ℚ) (st : AudioStream)
    (hf : st.fading = true) (hr : 0 < st.fade_rate)
    (h0 : 0 ≤ st.volume) (hlt : st.volume < st.fade_target)
    (h1 : st.fade_target ≤ 1)
    (hdts : ∀ dt ∈ dts, 0 ≤ dt)
    (hsum : st.fade_target - st.volume ≤ st.fade_rate * dts.sum) :
    (st.updateMany dts).volume = st.fade_target ∧
    (st.updateMany dts).fading = false := by
  induction dts generalizing st with
  | nil =>
      exfalso
      simp only [List.sum_nil, mul_zero] at hsum
      linarith
  | cons dt rest ih =>
      have hdt : 0 ≤ dt := hdts dt (List.mem_cons_self dt rest)
      have hrest : ∀ x ∈ rest, 0 ≤ x := fun x hx => hdts x (List.mem_cons_of_mem dt hx)
      have hclamp : clamp01 st.fade_target = st.fade_target := by
        unfold clamp01
        rw [min_eq_right h1, max_eq_right (le_of_lt (lt_of_le_of_lt h0 hlt))]
      show ((st.update dt).updateMany rest).volume = st.fade_target ∧
        ((st.update dt).updateMany rest).fading = false
      by_cases hv : st.volume + st.fade_rate * dt ≥ st.fade_target
      · have hupd : st.update dt =
            { st with volume := clamp01 st.fade_target, fading := false } := by
          simp [AudioStream.update, hf, hr, hv]
        rw [hupd, updateMany_not_fading rest _ rfl]
        simp [hclamp]
      · have hvle : st.volume + st.fade_rate * dt < st.fade_target := lt_of_not_le hv
        have hv0 : 0 ≤ st.volume + st.fade_rate * dt := by positivity
        have hclampv : clamp01 (st.volume + st.fade_rate * dt) =
            st.volume + st.fade_rate * dt := by
          unfold clamp01
          rw [min_eq_right (le_trans (le_of_lt hvle) h1), max_eq_right hv0]
        have hupd : st.update dt =
            { st with volume := st.volume + st.fade_rate * dt } := by
          simp [AudioStream.update, hf, hv, hr.asymm, hclampv]
        rw [hupd]
        refine ih _ hf hr hv0 hvle h1 hrest ?_
        show st.fade_target - (st.volume + st.fade_rate * dt) ≤
          st.fade_rate * rest.sum
        have hexp : st.fade_rate * (dt + rest.sum) =
            st.fade_rate * dt + st.fade_rate * rest.sum := by ring
        simp only [List.sum_cons] at hsum
        rw [hexp] at hsum
        linarith

/-- A downward fade reaches its target once the accumulated time covers
the remaining distance. -/
theorem updateMany_fade_down (dts : List ℚ) (st : AudioStream)
    (hf : st.fading = true) (hr : st.fade_rate < 0)
    (h0 : 0 ≤ st.fade_target) (hlt : st.fade_target < st.volume)
    (h1 : st.volume ≤ 1)
    (hdts : ∀ dt ∈ dts, 0 ≤ dt)
    (hsum : st.fade_rate * dts.sum ≤ st.fade_target - st.volume) :
    (st.updateMany dts).volume = st.fade_target ∧
    (st.updateMany dts).fading = false := by
  induction dts generalizing st with
  | nil =>
      exfalso
      simp only [List.sum_nil, mul_zero] at hsum
      linarith
  | cons dt rest ih =>
      have hdt : 0 ≤ dt := hdts dt (List.mem_cons_self dt rest)
      have hrest : ∀ x ∈ rest, 0 ≤ x := fun x hx => hdts x (List.mem_cons_of_mem dt hx)
      have hclamp : clamp01 st.fade_target = st.fade_target := by
        unfold clamp01
        rw [min_eq_right (le_trans (le_of_lt hlt) h1), max_eq_right h0]
      show ((st.update dt).updateMany rest).volume = st.fade_target ∧
        ((st.update dt).updateMany rest).fading = false
      by_cases hv : st.volume + st.fade_rate * dt ≤ st.fade_target
      · have hupd : st.update dt =
            { st with volume := clamp01 st.fade_target, fading := false } := by
          simp [AudioStream.update, hf, hr, hr.asymm, hv]
        rw [hupd, updateMany_not_fading rest _ rfl]
        exact ⟨hclamp, rfl⟩
      · have hvgt : st.fade_target < st.volume + st.fade_rate * dt := lt_of_not_le hv
        have hrdt : st.fade_rate * dt ≤ 0 := mul_nonpos_of_nonpos_of_nonneg hr.le hdt
        have hv1 : st.volume + st.fade_rate * dt ≤ 1 := by linarith
        have hv0 : 0 ≤ st.volume + st.fade_rate * dt := le_trans h0 hvgt.le
        have hclampv : clamp01 (st.volume + st.fade_rate * dt) =
            st.volume + st.fade_rate * dt := by
          unfold clamp01
          rw [min_eq_right hv1, max_eq_right hv0]
        have hupd : st.update dt =
            { st with volume := st.volume + st.fade_rate * dt } := by
          simp [AudioStream.update, hf, hr.asymm, hv, hclampv]
        rw [hupd]
        refine ih _ hf hr h0 hvgt hv1 hrest ?_
        show st.fade_rate * rest.sum ≤
          st.fade_target - (st.volume + st.fade_rate * dt)
        have hexp : st.fade_rate * (dt + rest.sum) =
            st.fade_rate * dt + st.fade_rate * rest.sum := by ring
        simp only [List.sum_cons] at hsum
        rw [hexp] at hsum
        linarith

/-- Helper: `set_fade` followed by enough elapsed update time reaches
its target exactly and clears the fading flag; a non-positive duration
snaps. -/
theorem fade_reaches_target (st : AudioStream) (v d : ℚ) (dts : List ℚ)
    (hv0 : 0 ≤ v) (hv1 : v ≤ 1)
    (hst0 : 0 ≤ st.volume) (hst1 : st.volume ≤ 1) :
    (0 < d → (∀ dt ∈ dts, 0 ≤ dt) → d / 1000 ≤ dts.sum →
      ((st.set_fade v d).updateMany dts).volume = v ∧
      ((st.set_fade v d).updateMany dts).fading = false) ∧
    (d ≤ 0 → (st.set_fade v d).volume = v ∧ (st.set_fade v d).fading = false) := by
  have hclv : clamp01 v = v := by
    unfold clamp01
    rw [min_eq_right hv1, max_eq_right hv0]
  constructor
  · intro hd hdts hsum
    have hdne : ¬ d ≤ 0 := not_le_of_lt hd
    by_cases hnear : |st.volume - v| < 1 / 1000000
    · have hnear2 : |st.volume - v| < (1000000 : ℚ)⁻¹ := by rwa [one_div] at hnear
      have hsf : st.set_fade v d =
          { st with volume := v, fade_target := v, fading := false } := by
        simp [AudioStream.set_fade, hclv, hdne, hnear2]
      rw [hsf, updateMany_not_fading dts _ rfl]
      exact ⟨rfl, rfl⟩
    · have hnear2 : ¬ |st.volume - v| < (1000000 : ℚ)⁻¹ := by rwa [one_div] at hnear
      have hsf : st.set_fade v d =
          { st with fade_target := v, fade_rate := (v - st.volume) / (d / 1000)
                    fading := true } := by
        simp [AudioStream.set_fade, hclv, hdne, hnear2]
      have hdpos : (0 : ℚ) < d / 1000 := by positivity
      rcases lt_trichotomy st.volume v with hlt | heq | hgt
      · have hr : 0 < (v - st.volume) / (d / 1000) := by
          apply div_pos ?_ hdpos
          linarith
        rw [hsf]
        refine updateMany_fade_up dts _ rfl hr hst0 hlt hv1 hdts ?_
        show v - st.volume ≤ (v - st.volume) / (d / 1000) * dts.sum
        have h1 : (v - st.volume) / (d / 1000) * (d / 1000) ≤
            (v - st.volume) / (d / 1000) * dts.sum := by
          exact mul_le_mul_of_nonneg_left hsum hr.le
        rw [div_mul_cancel₀ _ (ne_of_gt hdpos)] at h1
        exact h1
      · exfalso
        apply hnear
        rw [heq]
        simp
      · have hr : (v - st.volume) / (d / 1000) < 0 := by
          apply div_neg_of_neg_of_pos ?_ hdpos
          linarith
        rw [hsf]
        refine updateMany_fade_down dts _ rfl hr hv0 hgt hst1 hdts ?_
        show (v - st.volume) / (d / 1000) * dts.sum ≤ v - st.volume
        have h1 : (v - st.volume) / (d / 1000) * dts.sum ≤
            (v - st.volume) / (d / 1000) * (d / 1000) := by
          exact mul_le_mul_of_nonpos_left hsum hr.le
        rw [div_mul_cancel₀ _ (ne_of_gt hdpos)] at h1
        exact h1
  · intro hd
    simp [AudioStream.set_fade, AudioStream.set_volume, hclv, hd]

/-- C4: for every stream, `set_fade(v, d)` with `d > 0` followed by
`update(dt)` calls whose elapsed time totals at least the fade duration
leaves `current_volume = v` with the fading flag cleared; `set_fade`
with `d ≤ 0` snaps the volume to `v` immediately. -/
theorem set_fade_completes (st : AudioStream) (v d : ℚ) (dts : List ℚ)
    (hv0 : 0 ≤ v) (hv1 : v ≤ 1)
    (hst0 : 0 ≤ st.volume) (hst1 : st.volume ≤ 1) :
    (0 < d → (∀ dt ∈ dts, 0 ≤ dt) → d / 1000 ≤ dts.sum →
      ((st.set_fade v d).updateMany dts).volume = v ∧
      ((st.set_fade v d).updateMany dts).fading = false) ∧
    (d ≤ 0 → (st.set_fade v d).volume = v ∧ (st.set_fade v d).fading = false) :=
  fade_reaches_target st v d dts hv0 hv1 hst0 hst1

/-- Concrete instantiation of `set_fade_completes`: fade a fresh stream
to full volume over one second, advanced by two half-second updates, and
snap with a non-positive duration. -/
theorem set_fade_completes_witness :
    ((((AudioStream.mk0 [(0, 0)] true).set_fade 1 1000).updateMany
        [1/2, 1/2]).volume = 1 ∧
      (((AudioStream.mk0 [(0, 0)] true).set_fade 1 1000).updateMany
        [1/2, 1/2]).fading = false) ∧
    (((AudioStream.mk0 [(0, 0)] true).set_fade (1/2) 0).volume = 1/2 ∧
      ((AudioStream.mk0 [(0, 0)] true).set_fade (1/2) 0).fading = false) := by
  constructor
  · exact (set_fade_completes (AudioStream.mk0 [(0, 0)] true) 1 1000 [1/2, 1/2]
      (by norm_num) (by norm_num)
      (by simp [AudioStream.mk0]) (by simp [AudioStream.mk0])).1
      (by norm_num) (by norm_num) (by norm_num)
  · exact (set_fade_completes (AudioStream.mk0 [(0, 0)] true) (1/2) 0 []
      (by norm_num) (by norm_num)
      (by simp [AudioStream.mk0]) (by simp [AudioStream.mk0])).2 le_rfl

/-- C10: `set_fade` with the current volume already within `1e-6` of the
requested target and any positive duration snaps the volume exactly to
the target and leaves the fading flag false (no fade in progress). -/
theorem set_fade_near_target (st : AudioStream) (v d : ℚ)
    (hv0 : 0 ≤ v) (hv1 : v ≤ 1) (hd : 0 < d)
    (hnear : |st.volume - v| < 1 / 1000000) :
    (st.set_fade v d).volume = v ∧ (st.set_fade v d).fading = false := by
  have hclv : clamp01 v = v := by
    unfold clamp01
    rw [min_eq_right hv1, max_eq_right hv0]
  have hnear2 : |st.volume - v| < (1000000 : ℚ)⁻¹ := by rwa [one_div] at hnear
  simp [AudioStream.set_fade, hclv, not_le_of_lt hd, hnear2]

/-- Concrete instantiation of `set_fade_near_target`. -/
theorem set_fade_near_target_witness :
    (({ AudioStream.mk0 [(0, 0)] true with
        volume := 1/2 + 1/2000000 }).set_fade (1/2) 300).volume = 1/2 ∧
    (({ AudioStream.mk0 [(0, 0)] true with
        volume := 1/2 + 1/2000000 }).set_fade (1/2) 300).fading = false := by
  refine set_fade_near_target _ (1/2) 300 (by norm_num) (by norm_num)
    (by norm_num) ?_
  show |(1/2 + 1/2000000 : ℚ) - 1/2| < 1 / 1000000
  rw [show (1/2 + 1/2000000 : ℚ) - 1/2 = 1/2000000 by norm_num,
    abs_of_pos (by norm_num)]
  norm_num

/-- C2 fails on the code: the dwell timer is never capped, so two
updates of `dt = 2` on a continuously gazed region with
`dwell_time_ms = 1500` leave the timer at `4`, which exceeds
`dwell_time_ms / 1000 + dt = 3.5`. -/
theorem dwell_timer_claim_counterexample :
    timersGet "r1"
      (((InteractionModel.init.update centreGazeFace [squareRegion] 2).2.update
          centreGazeFace [squareRegion] 2).2.dwell_timers) = 4 ∧
    ¬ timersGet "r1"
      (((InteractionModel.init.update centreGazeFace [squareRegion] 2).2.update
          centreGazeFace [squareRegion] 2).2.dwell_timers) ≤
      squareRegion.gaze_trigger.dwell_time_ms / 1000 + 2 := by
  have h4 : timersGet "r1"
      (((InteractionModel.init.update centreGazeFace [squareRegion] 2).2.update
          centreGazeFace [squareRegion] 2).2.dwell_timers) = 4 := by
    norm_num [InteractionModel.update, InteractionModel.init, imStep,
      centreGazeFace, squareRegion, FaceData.default, timersGet, alistGet,
      alistInsert, region_hit_test, point_in_polygon, List.range_succ,
      List.filter]
  refine ⟨h4, ?_⟩
  rw [h4]
  norm_num [squareRegion]

/-- Looking up a key just stored finds the stored value. -/
theorem timersGet_insert_self (k : String) (v : ℚ) (l : List (String × ℚ)) :
    timersGet k (alistInsert k v l) = v := by
  induction l with
  | nil => simp [alistInsert, timersGet, alistGet]
  | cons kv rest ih =>
      obtain ⟨k2, v2⟩ := kv
      by_cases h : k2 = k
      · simp [alistInsert, h, timersGet, alistGet]
      · simpa [alistInsert, h, timersGet, alistGet] using ih

/-- Storing under a different key does not change a lookup. -/
theorem timersGet_insert_ne (k k2 : String) (h : k ≠ k2) (v : ℚ)
    (l : List (String × ℚ)) :
    timersGet k (alistInsert k2 v l) = timersGet k l := by
  induction l with
  | nil => simp [alistInsert, timersGet, alistGet, Ne.symm h]
  | cons kv rest ih =>
      obtain ⟨k3, v3⟩ := kv
      by_cases h3 : k3 = k2
      · subst h3
        simp [alistInsert, timersGet, alistGet, Ne.symm h]
      · by_cases hk : k3 = k
        · subst hk
          simp [alistInsert, h3, timersGet, alistGet]
        · simpa [alistInsert, h3, timersGet, alistGet, hk] using ih

/-- One region step leaves the timers of all other region ids alone. -/
theorem imStep_timers_ne (fd : FaceData) (dt : ℚ)
    (acc : List String × List String × List (String × ℚ)) (region : Region)
    (rid : String) (h : region.id ≠ rid) :
    timersGet rid (imStep fd dt acc region).2.2 = timersGet rid acc.2.2 := by
  obtain ⟨a, b, t⟩ := acc
  simp only [imStep]
  split_ifs <;>
    first
      | rfl
      | exact timersGet_insert_ne rid region.id (Ne.symm h) _ t

/-- One region step either leaves a timer, advances it by `dt`, or
resets it to zero. -/
theorem imStep_timers_cases (fd : FaceData) (dt : ℚ)
    (acc : List String × List String × List (String × ℚ)) (region : Region)
    (rid : String) :
    timersGet rid (imStep fd dt acc region).2.2 = timersGet rid acc.2.2 ∨
    timersGet rid (imStep fd dt acc region).2.2 = timersGet rid acc.2.2 + dt ∨
    timersGet rid (imStep fd dt acc region).2.2 = 0 := by
  by_cases hr : region.id = rid
  · subst hr
    obtain ⟨a, b, t⟩ := acc
    simp only [imStep]
    split_ifs <;>
      first
        | (left; rfl)
        | (right; left; exact timersGet_insert_self region.id _ t)
        | (right; right; exact timersGet_insert_self region.id 0 t)
  · left
    exact imStep_timers_ne fd dt acc region rid hr

/-- Folding over regions whose ids avoid `rid` leaves its timer alone. -/
theorem imFold_timers_untouched (fd : FaceData) (dt : ℚ) :
    ∀ (regs : List Region) (acc : List String × List String × List (String × ℚ))
      (rid : String), rid ∉ regs.map Region.id →
      timersGet rid (regs.foldl (imStep fd dt) acc).2.2 = timersGet rid acc.2.2 := by
  intro regs
  induction regs with
  | nil => intro acc rid _; rfl
  | cons r rest ih =>
      intro acc rid h
      simp only [List.map_cons, List.mem_cons] at h
      push_neg at h
      rw [List.foldl_cons, ih _ rid h.2,
        imStep_timers_ne fd dt acc r rid (fun hc => h.1 hc.symm)]

/-- Over a region list with unique ids, one pass changes each timer by
at most `dt` (or resets it). -/
theorem imFold_timers_cases (fd : FaceData) (dt : ℚ) :
    ∀ (regs : List Region) (acc : List String × List String × List (String × ℚ))
      (rid : String), (regs.map Region.id).Nodup →
      timersGet rid (regs.foldl (imStep fd dt) acc).2.2 = timersGet rid acc.2.2 ∨
      timersGet rid (regs.foldl (imStep fd dt) acc).2.2 =
        timersGet rid acc.2.2 + dt ∨
      timersGet rid (regs.foldl (imStep fd dt) acc).2.2 = 0 := by
  intro regs
  induction regs with
  | nil => intro acc rid _; left; rfl
  | cons r rest ih =>
      intro acc rid hn
      simp only [List.map_cons, List.nodup_cons] at hn
      by_cases hr : r.id = rid
      · have hnot : rid ∉ rest.map Region.id := by rw [← hr]; exact hn.1
        rw [List.foldl_cons, imFold_timers_untouched fd dt rest _ rid hnot]
        exact imStep_timers_cases fd dt acc r rid
      · rw [List.foldl_cons]
        have hstep := imStep_timers_ne fd dt acc r rid hr
        have hrec := ih (imStep fd dt acc r) rid hn.2
        rw [hstep] at hrec
        exact hrec

/-- A lookup through the dwell-timer filter (whose predicate depends
only on the key) either sees the original value or the default 0. -/
theorem timersGet_filter (rid : String) (A B : List String) :
    ∀ l : List (String × ℚ),
      timersGet rid (l.filter (fun kv => decide (kv.1 ∈ A ∨ kv.1 ∉ B))) =
      if rid ∈ A ∨ rid ∉ B then timersGet rid l else 0 := by
  intro l
  induction l with
  | nil => simp [timersGet, alistGet]
  | cons kv rest ih =>
      obtain ⟨k, v⟩ := kv
      by_cases hk : k = rid
      · subst hk
        by_cases hc : k ∈ A ∨ k ∉ B
        · simp [List.filter_cons, hc, timersGet, alistGet]
        · simp only [List.filter_cons, decide_eq_true_eq, if_neg hc]
          rw [ih]
          simp [hc]
      · by_cases hc : k ∈ A ∨ k ∉ B
        · simp only [List.filter_cons, decide_eq_true_eq, if_pos hc]
          simp only [timersGet, alistGet, if_neg hk]
          exact ih
        · simp only [List.filter_cons, decide_eq_true_eq, if_neg hc]
          rw [ih]
          simp only [timersGet, alistGet, if_neg hk]

/-- One full `InteractionModel.update` advances each dwell timer by at
most `dt` and keeps it non-negative. -/
theorem update_timers_bound (s : InteractionModel) (fd : FaceData)
    (regions : List Region) (dt : ℚ) (rid : String)
    (hn : (regions.map Region.id).Nodup) (hdt : 0 ≤ dt)
    (h0 : 0 ≤ timersGet rid s.dwell_timers) :
    timersGet rid (s.update fd regions dt).2.dwell_timers ≤
      timersGet rid s.dwell_timers + dt ∧
    0 ≤ timersGet rid (s.update fd regions dt).2.dwell_timers := by
  by_cases hface : fd.num_faces > 0 ∧ fd.gaze_confidence > 0
  · have he : (s.update fd regions dt).2.dwell_timers =
        (regions.foldl (imStep fd dt) ([], [], s.dwell_timers)).2.2.filter
          (fun kv => decide
            (kv.1 ∈ (regions.foldl (imStep fd dt) ([], [], s.dwell_timers)).1 ∨
              kv.1 ∉ s.prev_active)) := by
      simp [InteractionModel.update, hface]
    rw [he, timersGet_filter]
    have hcases := imFold_timers_cases fd dt regions ([], [], s.dwell_timers) rid hn
    simp only [] at hcases
    split_ifs with hmem
    · rcases hcases with h | h | h <;> rw [h] <;> constructor <;> linarith
    · constructor <;> linarith
  · have he : (s.update fd regions dt).2.dwell_timers =
        s.dwell_timers.filter
          (fun kv => decide
            (kv.1 ∈ (([], [], s.dwell_timers) :
                List String × List String × List (String × ℚ)).1 ∨
              kv.1 ∉ s.prev_active)) := by
      simp [InteractionModel.update, hface]
    rw [he, timersGet_filter]
    split_ifs with hmem
    · constructor <;> linarith
    · constructor <;> linarith

/-- Running a sequence of updates grows each dwell timer by at most the
sum of the tick deltas. -/
theorem updateRun_timers_bound :
    ∀ (steps : List (FaceData × List Region × ℚ)) (s : InteractionModel) (C : ℚ),
      (∀ step ∈ steps, 0 ≤ step.2.2 ∧ (step.2.1.map Region.id).Nodup) →
      (∀ rid, 0 ≤ timersGet rid s.dwell_timers ∧
        timersGet rid s.dwell_timers ≤ C) →
      ∀ rid, 0 ≤ timersGet rid (s.updateRun steps).dwell_timers ∧
        timersGet rid (s.updateRun steps).dwell_timers ≤
          C + (steps.map (fun step => step.2.2)).sum := by
  intro steps
  induction steps with
  | nil =>
      intro s C hsteps hs rid
      refine ⟨(hs rid).1, ?_⟩
      simpa using (hs rid).2
  | cons st rest ih =>
      intro s C hsteps hs rid
      have hst := hsteps st (List.mem_cons_self st rest)
      have hupd := fun r =>
        update_timers_bound s st.1 st.2.1 st.2.2 r hst.2 hst.1 (hs r).1
      have hrec := ih (s.update st.1 st.2.1 st.2.2).2 (C + st.2.2)
        (fun x hx => hsteps x (List.mem_cons_of_mem st hx))
        (fun r => ⟨(hupd r).2,
          le_trans (hupd r).1 (by linarith [(hs r).2])⟩) rid
      have hrun : s.updateRun (st :: rest) =
          ((s.update st.1 st.2.1 st.2.2).2).updateRun rest := rfl
      rw [hrun]
      refine ⟨hrec.1, ?_⟩
      simp only [List.map_cons, List.sum_cons]
      linarith [hrec.2]

/-- C2 amended: the accumulated dwell timer of every region, after any
sequence of interaction-model updates with non-negative tick deltas and
per-image unique region ids, is bounded by the sum of the tick deltas
(the code never caps the timer at `dwell_time_ms / 1000 + dt`). -/
theorem dwell_timer_sum_bound (steps : List (FaceData × List Region × ℚ))
    (hsteps : ∀ step ∈ steps, 0 ≤ step.2.2 ∧ (step.2.1.map Region.id).Nodup)
    (rid : String) :
    timersGet rid (InteractionModel.init.updateRun steps).dwell_timers ≤
      (steps.map (fun step => step.2.2)).sum := by
  have hinit : ∀ r : String, 0 ≤ timersGet r InteractionModel.init.dwell_timers ∧
      timersGet r InteractionModel.init.dwell_timers ≤ 0 := by
    intro r
    simp [InteractionModel.init, timersGet, alistGet]
  have := updateRun_timers_bound steps InteractionModel.init 0 hsteps hinit rid
  simpa using this.2

/-- Concrete instantiation of `dwell_timer_sum_bound`: one update with
`dt = 2` leaves the square region's timer at most `2`. -/
theorem dwell_timer_sum_bound_witness :
    timersGet "r1"
      (InteractionModel.init.updateRun
        [(centreGazeFace, [squareRegion], 2)]).dwell_timers ≤
      (([(centreGazeFace, [squareRegion], (2 : ℚ))].map
        (fun step => step.2.2)).sum) := by
  exact dwell_timer_sum_bound [(centreGazeFace, [squareRegion], 2)]
    (by
      intro step hstep
      simp only [List.mem_singleton] at hstep
      subst hstep
      refine ⟨by norm_num, ?_⟩
      simp [squareRegion])
    "r1"

/-- The distance factor always lies in `[0, 1]`. -/
theorem compute_distance_factor_nonneg (fd : FaceData) (near far : ℚ) :
    0 ≤ compute_distance_factor fd near far := by
  simp only [compute_distance_factor]
  split_ifs <;> try norm_num
  rw [div_le_one (by linarith)]
  linarith

/-- The distance factor never exceeds `1`. -/
theorem compute_distance_factor_le_one (fd : FaceData) (near far : ℚ) :
    compute_distance_factor fd near far ≤ 1 := by
  simp only [compute_distance_factor]
  split_ifs <;> try norm_num
  exact div_nonneg (by linarith) (by linarith)

/-- C9: with a face detected, the distance factor is `1` at or inside
`near_cm`, `0` at or beyond `far_cm`, the linear interpolation in
between, a step function when `near_cm ≥ far_cm`, and monotonically
non-increasing in the distance. -/
theorem distance_factor_spec (fd : FaceData) (near far : ℚ)
    (hface : 0 < fd.num_faces) :
    (near ≥ far →
      (fd.face_distance_cm ≤ near → compute_distance_factor fd near far = 1) ∧
      (¬ fd.face_distance_cm ≤ near → compute_distance_factor fd near far = 0)) ∧
    (near < far →
      (fd.face_distance_cm ≤ near → compute_distance_factor fd near far = 1) ∧
      (far ≤ fd.face_distance_cm → compute_distance_factor fd near far = 0) ∧
      (near < fd.face_distance_cm → fd.face_distance_cm < far →
        compute_distance_factor fd near far =
          1 - (fd.face_distance_cm - near) / (far - near))) ∧
    (∀ d1 d2 : ℚ, d1 ≤ d2 →
      compute_distance_factor { fd with face_distance_cm := d2 } near far ≤
      compute_distance_factor { fd with face_distance_cm := d1 } near far) := by
  have hn0 : fd.num_faces ≠ 0 := hface.ne'
  refine ⟨?_, ?_, ?_⟩
  · intro hnf
    constructor
    · intro hd
      simp [compute_distance_factor, hn0, hnf, hd]
    · intro hd
      simp [compute_distance_factor, hn0, hnf, hd]
  · intro hnf
    have hnf2 : ¬ far ≤ near := not_le_of_lt hnf
    refine ⟨?_, ?_, ?_⟩
    · intro hd
      simp [compute_distance_factor, hn0, hnf2, hd]
    · intro hd
      by_cases hdn : fd.face_distance_cm ≤ near
      · linarith
      · simp [compute_distance_factor, hn0, hnf2, hdn, hd]
    · intro hd1 hd2
      simp [compute_distance_factor, hn0, hnf2, not_le_of_lt hd1,
        not_le_of_lt hd2]
  · intro d1 d2 hd
    by_cases hnf : near ≥ far
    · by_cases h2 : d2 ≤ near
      · have h1 : d1 ≤ near := le_trans hd h2
        simp [compute_distance_factor, hn0, hnf, h1, h2]
      · have hle : compute_distance_factor { fd with face_distance_cm := d2 }
            near far = 0 := by
          simp [compute_distance_factor, hn0, hnf, h2]
        rw [hle]
        exact compute_distance_factor_nonneg _ _ _
    · have hnf2 : near < far := lt_of_not_le hnf
      by_cases h1 : d1 ≤ near
      · have hle : compute_distance_factor { fd with face_distance_cm := d1 }
            near far = 1 := by
          simp [compute_distance_factor, hn0, hnf, h1]
        rw [hle]
        exact compute_distance_factor_le_one _ _ _
      · by_cases h2f : far ≤ d2
        · have hle : compute_distance_factor { fd with face_distance_cm := d2 }
              near far = 0 := by
            by_cases h2n : d2 ≤ near
            · linarith
            · simp [compute_distance_factor, hn0, hnf, h2n, h2f]
          rw [hle]
          exact compute_distance_factor_nonneg _ _ _
        · have h2n : ¬ d2 ≤ near := fun hc => h1 (le_trans hd hc)
          by_cases h1f : far ≤ d1
          · linarith
          · have e1 : compute_distance_factor { fd with face_distance_cm := d1 }
                near far = 1 - (d1 - near) / (far - near) := by
              simp [compute_distance_factor, hn0, hnf, h1, h1f]
            have e2 : compute_distance_factor { fd with face_distance_cm := d2 }
                near far = 1 - (d2 - near) / (far - near) := by
              simp [compute_distance_factor, hn0, hnf, h2n, h2f]
            rw [e1, e2]
            have hstep : (d1 - near) / (far - near) ≤ (d2 - near) / (far - near) := by
              gcongr
              linarith
            linarith

/-- Concrete instantiation of `distance_factor_spec` at
`near = 80`, `far = 300`, distance `190` (midpoint). -/
theorem distance_factor_spec_witness :
    compute_distance_factor
      { FaceData.default with num_faces := 1, face_distance_cm := 190 }
      80 300 = 1 - ((190 : ℚ) - 80) / (300 - 80) := by
  exact ((distance_factor_spec
      { FaceData.default with num_faces := 1, face_distance_cm := 190 }
      80 300 (by norm_num)).2.1 (by norm_num)).2.2 (by norm_num) (by norm_num)

/-- The timer phase never changes the state, the thresholds, and, with a
face detected, zeroes the face-lost timer. -/
theorem update_timers_fields (s : InteractionStateMachine) (fd : FaceData)
    (active : List String) (dt : ℚ) (minc : ℚ) :
    (s.update_timers fd active dt minc).state = s.state ∧
    (s.update_timers fd active dt minc).presence_distance_cm =
      s.presence_distance_cm ∧
    (s.update_timers fd active dt minc).close_distance_cm =
      s.close_distance_cm ∧
    (0 < fd.num_faces →
      (s.update_timers fd active dt minc).face_lost_timer = 0) := by
  simp only [InteractionStateMachine.update_timers]
  split_ifs with h1 h2 h2 <;>
    refine ⟨rfl, rfl, rfl, fun hface => ?_⟩ <;>
    simp_all

/-- C3: in CLOSE_INTERACTION with a face detected and no gaze-away
timeout pending, an update moves to ENGAGED exactly when the distance
exceeds `min(1.5 * close, presence)`, and that transition preserves the
gaze-away timer; the PRESENCE-to-ENGAGED transition resets it to 0. -/
theorem close_interaction_hysteresis (s : InteractionStateMachine)
    (fd : FaceData) (active : List String) (dt : ℚ) (dwell : List String)
    (minc : ℚ)
    (hface : 0 < fd.num_faces)
    (hgaze : (s.update_timers fd active dt minc).gaze_away_timer <
      WITHDRAW_GAZE_AWAY_TIMEOUT_S) :
    (s.state = InteractionState.CLOSE_INTERACTION →
      ((s.update fd active dt dwell minc).state = InteractionState.ENGAGED ↔
        fd.face_distance_cm >
          min (s.close_distance_cm * (3/2)) s.presence_distance_cm) ∧
      ((s.update fd active dt dwell minc).state = InteractionState.ENGAGED →
        (s.update fd active dt dwell minc).gaze_away_timer =
          (s.update_timers fd active dt minc).gaze_away_timer)) ∧
    (s.state = InteractionState.PRESENCE → dwell ≠ [] →
      fd.face_distance_cm < s.presence_distance_cm →
      (s.update fd active dt dwell minc).state = InteractionState.ENGAGED ∧
      (s.update fd active dt dwell minc).gaze_away_timer = 0) := by
  obtain ⟨hst, hpres, hclose, hlost⟩ := update_timers_fields s fd active dt minc
  have hfb : (decide (fd.num_faces > 0)) = true := decide_eq_true hface
  set s2 := s.update_timers fd active dt minc with hs2
  have hlost0 : s2.face_lost_timer = 0 := hlost hface
  constructor
  · intro hcl
    have hstate : s2.state = InteractionState.CLOSE_INTERACTION := by
      rw [hst, hcl]
    have hupd : s.update fd active dt dwell minc =
        s2.update_close_interaction (fd.num_faces > 0) fd.face_distance_cm := by
      simp only [InteractionStateMachine.update, ← hs2, hstate]
    have hnl : ¬ s2.face_lost_timer ≥ IDLE_FACE_LOST_TIMEOUT_S := by
      rw [hlost0]
      norm_num [IDLE_FACE_LOST_TIMEOUT_S]
    have hng : ¬ s2.gaze_away_timer ≥ WITHDRAW_GAZE_AWAY_TIMEOUT_S :=
      not_le_of_lt hgaze
    by_cases hd : fd.face_distance_cm >
        min (s.close_distance_cm * (3/2)) s.presence_distance_cm
    · have hd2 : fd.face_distance_cm >
          min (s2.close_distance_cm * (3/2)) s2.presence_distance_cm := by
        rw [hpres, hclose]
        exact hd
      have hset : s2.update_close_interaction (fd.num_faces > 0)
          fd.face_distance_cm = s2.set_state InteractionState.ENGAGED := by
        simp only [InteractionStateMachine.update_close_interaction,
          if_neg hnl, if_neg hng]
        rw [if_pos ⟨by simpa using hface, hd2⟩]
      have hne : s2.state ≠ InteractionState.ENGAGED := by
        rw [hstate]
        decide
      have hfinal : s2.set_state InteractionState.ENGAGED =
          { s2 with state := InteractionState.ENGAGED
                    should_cycle_image := false } := by
        simp only [InteractionStateMachine.set_state, if_neg hne]
        rw [if_neg (by decide), if_neg (by rw [hstate]; simp), if_neg (by decide)]
      rw [hupd, hset, hfinal]
      refine ⟨⟨fun _ => hd, fun _ => rfl⟩, fun _ => rfl⟩
    · have hd2 : ¬ fd.face_distance_cm >
          min (s2.close_distance_cm * (3/2)) s2.presence_distance_cm := by
        rw [hpres, hclose]
        exact hd
      have hset : s2.update_close_interaction (fd.num_faces > 0)
          fd.face_distance_cm = s2 := by
        simp only [InteractionStateMachine.update_close_interaction,
          if_neg hnl, if_neg hng]
        rw [if_neg (fun hc => hd2 hc.2)]
      rw [hupd, hset]
      constructor
      · constructor
        · intro he
          exact absurd (hstate.symm.trans he) (by decide)
        · exact fun hc => absurd hc hd
      · intro _
        rfl
  · intro hpr hdw hdist
    have hstate : s2.state = InteractionState.PRESENCE := by
      rw [hst, hpr]
    have hupd : s.update fd active dt dwell minc =
        s2.update_presence (fd.num_faces > 0) fd.face_distance_cm dwell := by
      simp only [InteractionStateMachine.update, ← hs2, hstate]
    have hnl : ¬ s2.face_lost_timer ≥ PRESENCE_LOST_TIMEOUT_S := by
      rw [hlost0]
      norm_num [PRESENCE_LOST_TIMEOUT_S]
    have hnd : ¬ ((fd.num_faces > 0 : Bool) = true ∧
        fd.face_distance_cm ≥ s2.presence_distance_cm) := by
      rw [hpres]
      exact fun hc => absurd hc.2 (not_le_of_lt hdist)
    have hset : s2.update_presence (fd.num_faces > 0) fd.face_distance_cm
        dwell = s2.set_state InteractionState.ENGAGED := by
      simp only [InteractionStateMachine.update_presence, if_neg hnl,
        if_neg hnd]
      rw [if_pos hdw]
    have hne : s2.state ≠ InteractionState.ENGAGED := by
      rw [hstate]
      decide
    have hfinal : s2.set_state InteractionState.ENGAGED =
        { s2 with state := InteractionState.ENGAGED
                  should_cycle_image := false, gaze_away_timer := 0 } := by
      simp only [InteractionStateMachine.set_state, if_neg hne]
      rw [if_neg (by decide),
        if_pos (show True ∧ s2.state ≠ InteractionState.CLOSE_INTERACTION from
          ⟨trivial, by rw [hstate]; decide⟩)]
    rw [hupd, hset, hfinal]
    exact ⟨rfl, rfl⟩

/-- Concrete instantiation of `close_interaction_hysteresis`: close
distance 80 cm, presence 300 cm, measured distance 130 cm exceeds the
hysteresis threshold `min(120, 300)` and moves back to ENGAGED keeping
the gaze-away timer. -/
theorem close_interaction_hysteresis_witness :
    (({ InteractionStateMachine.init with
        state := InteractionState.CLOSE_INTERACTION,
        gaze_away_timer := 1 }).update
      { FaceData.default with num_faces := 1, face_distance_cm := 130 }
      [] (1/30) [] 0).state = InteractionState.ENGAGED ∧
    (({ InteractionStateMachine.init with
        state := InteractionState.CLOSE_INTERACTION,
        gaze_away_timer := 1 }).update
      { FaceData.default with num_faces := 1, face_distance_cm := 130 }
      [] (1/30) [] 0).gaze_away_timer =
      (({ InteractionStateMachine.init with
          state := InteractionState.CLOSE_INTERACTION,
          gaze_away_timer := 1 }).update_timers
        { FaceData.default with num_faces := 1, face_distance_cm := 130 }
        [] (1/30) 0).gaze_away_timer := by
  have h := (close_interaction_hysteresis
    { InteractionStateMachine.init with
      state := InteractionState.CLOSE_INTERACTION, gaze_away_timer := 1 }
    { FaceData.default with num_faces := 1, face_distance_cm := 130 }
    [] (1/30) [] 0
    (by norm_num)
    (by
      norm_num [InteractionStateMachine.update_timers,
        InteractionStateMachine.init, FaceData.default, GAZE_MIN_CONFIDENCE,
        WITHDRAW_GAZE_AWAY_TIMEOUT_S])).1 rfl
  have hd : ((130 : ℚ) >
      min (InteractionStateMachine.init.close_distance_cm * (3/2))
        InteractionStateMachine.init.presence_distance_cm) := by
    norm_num [InteractionStateMachine.init]
  exact ⟨h.1.mpr hd, h.2 (h.1.mpr hd)⟩

/-- A clipped sample has magnitude at most 1. -/
theorem abs_clipSample_le_one (x : ℚ) : |clipSample x| ≤ 1 := by
  rw [abs_le]
  constructor
  · exact le_max_left (-1) (min 1 x)
  · exact max_le (by norm_num) (min_le_left 1 x)

/-- C5: every sample of the stereo buffer returned by `mix` has
absolute value at most 1, for any streams, volumes, and master volume. -/
theorem mix_output_clamped (m : AudioMixer) (num_frames : Nat)
    (sample_rate : ℚ) (fr : ℚ × ℚ)
    (hfr : fr ∈ (m.mix num_frames sample_rate).1) :
    |fr.1| ≤ 1 ∧ |fr.2| ≤ 1 := by
  simp only [AudioMixer.mix] at hfr
  rw [List.mem_map] at hfr
  obtain ⟨b, hb, rfl⟩ := hfr
  exact ⟨abs_clipSample_le_one _, abs_clipSample_le_one _⟩

/-- Concrete instantiation of `mix_output_clamped`: one silent frame of
an empty mixer. -/
theorem mix_output_clamped_witness :
    (((0 : ℚ), (0 : ℚ)) ∈ (AudioMixer.init.mix 1 44100).1) ∧
    |((0 : ℚ), (0 : ℚ)).1| ≤ 1 ∧ |((0 : ℚ), (0 : ℚ)).2| ≤ 1 := by
  have hmem : ((0 : ℚ), (0 : ℚ)) ∈ (AudioMixer.init.mix 1 44100).1 := by
    norm_num [AudioMixer.mix, AudioMixer.init, zeroFrames, clipSample,
      List.replicate]
  exact ⟨hmem, mix_output_clamped AudioMixer.init 1 44100 (0, 0) hmem⟩

/-- Looking up a key just stored finds the stored value (generic). -/
theorem alistGet_insert_self {α : Type} (k : String) (v : α)
    (l : List (String × α)) : alistGet k (alistInsert k v l) = some v := by
  induction l with
  | nil => simp [alistInsert, alistGet]
  | cons kv rest ih =>
      obtain ⟨k2, v2⟩ := kv
      by_cases h : k2 = k
      · simp [alistInsert, h, alistGet]
      · simpa [alistInsert, h, alistGet] using ih

/-- Storing under a different key does not change a lookup (generic). -/
theorem alistGet_insert_ne {α : Type} (k k2 : String) (h : k ≠ k2) (v : α)
    (l : List (String × α)) :
    alistGet k (alistInsert k2 v l) = alistGet k l := by
  induction l with
  | nil => simp [alistInsert, alistGet, Ne.symm h]
  | cons kv rest ih =>
      obtain ⟨k3, v3⟩ := kv
      by_cases h3 : k3 = k2
      · subst h3
        simp [alistInsert, alistGet, Ne.symm h]
      · by_cases hk : k3 = k
        · subst hk
          simp [alistInsert, h3, alistGet]
        · simpa [alistInsert, h3, alistGet, hk] using ih

/-- The retiring slot key differs from the original stream name. -/
theorem retiringName_ne (name : String) (oid : Nat) :
    retiringName name oid ≠ name := by
  intro hc
  have hlen := congrArg String.length hc
  simp only [retiringName, String.length_append] at hlen
  have h10 : "_retiring_".length = 10 := rfl
  have h1 : "_".length = 1 := rfl
  omega

/-- A key absent from the key list looks up to `none`. -/
theorem alistGet_eq_none {α : Type} (k : String) :
    ∀ l : List (String × α), k ∉ l.map Prod.fst → alistGet k l = none := by
  intro l
  induction l with
  | nil => intro _; rfl
  | cons kv rest ih =>
      intro h
      obtain ⟨k2, v2⟩ := kv
      simp only [List.map_cons, List.mem_cons] at h
      push_neg at h
      simp only [alistGet]
      rw [if_neg (show ¬ k2 = k from fun hc => h.1 hc.symm)]
      exact ih h.2

/-- Filtering cannot make an absent key appear. -/
theorem alistGet_filter_none {α : Type} (k : String) (p : String × α → Bool)
    (l : List (String × α)) (h : k ∉ l.map Prod.fst) :
    alistGet k (l.filter p) = none := by
  apply alistGet_eq_none
  intro hc
  exact h (List.Sublist.mem hc (List.Sublist.map Prod.fst (List.filter_sublist l)))

/-- A silent, non-fading stream is inactive regardless of the finished
flag. -/
theorem is_active_eq_false (st : AudioStream) (h1 : st.volume = 0)
    (h2 : st.fading = false) : st.is_active = false := by
  simp [AudioStream.is_active, h1, h2]

/-- `remove_inactive` deletes a stream that is inactive with volume at
most zero (unique keys). -/
theorem remove_inactive_removes (nm : String) :
    ∀ l : List (String × AudioStream), (l.map Prod.fst).Nodup →
      ∀ st : AudioStream, alistGet nm l = some st → st.is_active = false →
      st.volume ≤ 0 →
      alistGet nm (l.filter
        (fun kv => !(!kv.2.is_active && decide (kv.2.volume ≤ 0)))) = none := by
  intro l
  induction l with
  | nil =>
      intro _ st hget _ _
      simp [alistGet] at hget
  | cons kv rest ih =>
      intro hnodup st hget hia hvol
      obtain ⟨k, v⟩ := kv
      simp only [List.map_cons, List.nodup_cons] at hnodup
      by_cases hk : k = nm
      · subst hk
        have hv : v = st := by simpa [alistGet] using hget
        subst hv
        have hp : (!(!v.is_active && decide (v.volume ≤ 0))) = false := by
          rw [hia]
          simp [hvol]
        rw [List.filter_cons, hp]
        simp only [Bool.false_eq_true, if_false]
        exact alistGet_filter_none k _ rest hnodup.1
      · have hget2 : alistGet nm rest = some st := by
          simpa [alistGet, hk] using hget
        rw [List.filter_cons]
        by_cases hp : (!(!v.is_active && decide (v.volume ≤ 0))) = true
        · rw [hp]
          simp only [if_true]
          rw [show alistGet nm ((k, v) :: rest.filter
              (fun kv => !(!kv.2.is_active && decide (kv.2.volume ≤ 0)))) =
            alistGet nm (rest.filter
              (fun kv => !(!kv.2.is_active && decide (kv.2.volume ≤ 0))))
            from by simp [alistGet, hk]]
          exact ih hnodup.2 st hget2 hia hvol
        · rw [Bool.not_eq_true] at hp
          rw [hp]
          simp only [Bool.false_eq_true, if_false]
          exact ih hnodup.2 st hget2 hia hvol

/-- A 200 ms fade-out run to completion silences the stream. -/
theorem fade_out_silences (old : AudioStream) (dts : List ℚ)
    (hvol0 : 0 ≤ old.volume) (hvol1 : old.volume ≤ 1)
    (hdts : ∀ dt ∈ dts, 0 ≤ dt) (hsum : (200 : ℚ) / 1000 ≤ dts.sum) :
    ((old.set_fade 0 200).updateMany dts).volume = 0 ∧
    ((old.set_fade 0 200).updateMany dts).fading = false :=
  (fade_reaches_target old 0 200 dts le_rfl (by norm_num) hvol0 hvol1).1
    (by norm_num) hdts hsum

/-- C6: `add_stream` installs the new stream under the requested name
unconditionally; an active predecessor is re-keyed to a distinct
retiring slot with a 200 ms fade to zero started on it; adding twice
under one name leaves the latest stream under that name; and once the
retired stream's fade-out completes it is inactive, silent, and removed
by `remove_inactive`. -/
theorem add_stream_retires_and_replaces (m : AudioMixer) (name : String)
    (s1 s2 old : AudioStream) (oid oid2 : Nat) (dts : List ℚ)
    (hold : alistGet name m.streams = some old)
    (hact : old.is_active = true)
    (hvol0 : 0 ≤ old.volume) (hvol1 : old.volume ≤ 1)
    (hdts : ∀ dt ∈ dts, 0 ≤ dt) (hsum : (200 : ℚ) / 1000 ≤ dts.sum) :
    (∀ (mx : AudioMixer) (s : AudioStream) (od : Nat),
      alistGet name (mx.add_stream name s od).streams = some s) ∧
    alistGet name (m.add_stream name s1 oid).streams = some s1 ∧
    alistGet name
      ((m.add_stream name s1 oid).add_stream name s2 oid2).streams = some s2 ∧
    retiringName name oid ≠ name ∧
    alistGet (retiringName name oid) (m.add_stream name s1 oid).streams =
      some (old.set_fade 0 200) ∧
    ((old.set_fade 0 200).updateMany dts).is_active = false ∧
    ((old.set_fade 0 200).updateMany dts).volume ≤ 0 ∧
    (∀ (m2 : AudioMixer) (nm : String), (m2.streams.map Prod.fst).Nodup →
      alistGet nm m2.streams = some ((old.set_fade 0 200).updateMany dts) →
      alistGet nm m2.remove_inactive.streams = none) := by
  have hfade := fade_out_silences old dts hvol0 hvol1 hdts hsum
  have hinstall : ∀ (mx : AudioMixer) (s : AudioStream) (od : Nat),
      alistGet name (mx.add_stream name s od).streams = some s := by
    intro mx s od
    unfold AudioMixer.add_stream
    match halist : alistGet name mx.streams with
    | some o =>
        by_cases ha : o.is_active
        · simp only [ha, if_true]
          exact alistGet_insert_self name s _
        · simp only [ha, Bool.false_eq_true, if_false]
          exact alistGet_insert_self name s _
    | none => exact alistGet_insert_self name s _
  refine ⟨hinstall, hinstall m s1 oid, hinstall _ s2 oid2,
    retiringName_ne name oid, ?_, ?_, ?_, ?_⟩
  · unfold AudioMixer.add_stream
    rw [hold]
    simp only [hact, if_true]
    rw [alistGet_insert_ne _ name (retiringName_ne name oid) s1 _]
    exact alistGet_insert_self _ _ m.streams
  · exact is_active_eq_false _ hfade.1 hfade.2
  · rw [hfade.1]
  · intro m2 nm hnodup hget
    unfold AudioMixer.remove_inactive
    exact remove_inactive_removes nm m2.streams hnodup _ hget
      (is_active_eq_false _ hfade.1 hfade.2) (le_of_eq hfade.1)

/-- Concrete instantiation of `add_stream_retires_and_replaces` on a
one-stream mixer with an active "amb" stream. -/
theorem add_stream_retires_and_replaces_witness :
    (∀ (mx : AudioMixer) (s : AudioStream) (od : Nat),
      alistGet "amb" (mx.add_stream "amb" s od).streams = some s) ∧
    alistGet "amb"
      (sampleMixer.add_stream "amb" (AudioStream.mk0 [(0, 0)] true) 1).streams
      = some (AudioStream.mk0 [(0, 0)] true) ∧
    alistGet "amb"
      ((sampleMixer.add_stream "amb" (AudioStream.mk0 [(0, 0)] true)
        1).add_stream "amb" (AudioStream.mk0 [(0, 0)] true) 2).streams
      = some (AudioStream.mk0 [(0, 0)] true) ∧
    retiringName "amb" 1 ≠ "amb" ∧
    alistGet (retiringName "amb" 1)
      (sampleMixer.add_stream "amb" (AudioStream.mk0 [(0, 0)] true) 1).streams
      = some (sampleOldStream.set_fade 0 200) ∧
    ((sampleOldStream.set_fade 0 200).updateMany [1/5]).is_active = false ∧
    ((sampleOldStream.set_fade 0 200).updateMany [1/5]).volume ≤ 0 ∧
    (∀ (m2 : AudioMixer) (nm : String), (m2.streams.map Prod.fst).Nodup →
      alistGet nm m2.streams =
        some ((sampleOldStream.set_fade 0 200).updateMany [1/5]) →
      alistGet nm m2.remove_inactive.streams = none) := by
  exact add_stream_retires_and_replaces sampleMixer "amb"
    (AudioStream.mk0 [(0, 0)] true) (AudioStream.mk0 [(0, 0)] true)
    sampleOldStream 1 2 [1/5]
    (by simp [sampleMixer, alistGet])
    (by norm_num [sampleOldStream, AudioStream.is_active])
    (by norm_num [sampleOldStream]) (by norm_num [sampleOldStream])
    (by norm_num) (by norm_num)

/-- C7 fails on the code: with an ambient file configured in the image
metadata but missing on disk, the IDLE-to-PRESENCE transition emits no
PLAY_AMBIENT (the path check fails) yet still sets `ambient_started`,
so the very same tick emits SET_VOLUME for the "ambient" stream with no
PLAY_AMBIENT ever sent in the session — contradicting the code's own
comment that `ambient_started` tracks "whether PLAY_AMBIENT has been
sent". -/
theorem ambient_set_volume_without_play :
    (brainRun (some missingAmbientImage) (fun _ => false) true
      [(presenceFace, 1/30, 0)]
      (BrainState.init (some missingAmbientImage))).1 =
      [AudioCommand.SET_VOLUME "ambient" 0] ∧
    (∀ f ms lp, AudioCommand.PLAY_AMBIENT f ms lp ∉
      (brainRun (some missingAmbientImage) (fun _ => false) true
        [(presenceFace, 1/30, 0)]
        (BrainState.init (some missingAmbientImage))).1) ∧
    AudioCommand.SET_VOLUME "ambient" 0 ∈
      (brainRun (some missingAmbientImage) (fun _ => false) true
        [(presenceFace, 1/30, 0)]
        (BrainState.init (some missingAmbientImage))).1 := by
  have heval : (brainRun (some missingAmbientImage) (fun _ => false) true
      [(presenceFace, 1/30, 0)]
      (BrainState.init (some missingAmbientImage))).1 =
      [AudioCommand.SET_VOLUME "ambient" 0] := by
    norm_num [brainRun, brainTick, BrainState.init, applyImageThresholds,
      missingAmbientImage, presenceFace, FaceData.default,
      InteractionModel.update, InteractionModel.init,
      InteractionModel.set_distance_thresholds, imStep,
      compute_distance_factor, InteractionStateMachine.update,
      InteractionStateMachine.update_timers, InteractionStateMachine.init,
      InteractionStateMachine.set_distance_thresholds,
      InteractionStateMachine.set_withdraw_duration,
      InteractionStateMachine.update_idle, InteractionStateMachine.set_state,
      GAZE_MIN_CONFIDENCE, IDLE_IMAGE_CYCLE_SECONDS,
      WITHDRAW_FADE_DURATION_S, onTransitionAudio, imgHasAmbientFile,
      continuousUpdates, ContState.init, GAZE_EPSILON, VOLUME_EPSILON,
      linear_curve]
    simp
  refine ⟨heval, ?_, ?_⟩
  · intro f ms lp
    rw [heval]
    simp
  · rw [heval]
    simp

/-- Heartbeat stream names determine their region id. -/
theorem heartbeat_name_inj (a b : String)
    (h : "heartbeat_" ++ a = "heartbeat_" ++ b) : a = b := by
  have h2 := congrArg String.data h
  simp [String.data_append] at h2
  exact String.ext h2

/-- The ambient stream name is never a heartbeat stream name. -/
theorem ambient_ne_heartbeat (s : String) : "ambient" ≠ "heartbeat_" ++ s := by
  intro h
  have hlen := congrArg String.length h
  simp only [String.length_append] at hlen
  have h7 : "ambient".length = 7 := rfl
  have h10 : "heartbeat_".length = 10 := rfl
  omega

/-- With unique region ids, two regions of the list with the same id
are the same region. -/
theorem region_id_unique :
    ∀ regions : List Region, (regions.map Region.id).Nodup →
      ∀ r1 ∈ regions, ∀ r2 ∈ regions, r1.id = r2.id → r1 = r2 := by
  intro regions
  induction regions with
  | nil =>
      intro _ r1 h1
      exact absurd h1 (List.not_mem_nil r1)
  | cons r rest ih =>
      intro hn r1 h1 r2 h2 he
      simp only [List.map_cons, List.nodup_cons] at hn
      rcases List.mem_cons.mp h1 with hr1 | hr1 <;>
        rcases List.mem_cons.mp h2 with hr2 | hr2
      · rw [hr1, hr2]
      · exfalso
        apply hn.1
        have hid : r.id = r2.id := by rw [← hr1]; exact he
        rw [hid]
        exact List.mem_map_of_mem Region.id hr2
      · exfalso
        apply hn.1
        have hid : r.id = r1.id := by rw [← hr2]; exact he.symm
        rw [hid]
        exact List.mem_map_of_mem Region.id hr1
      · exact ih hn.2 r1 hr1 r2 hr2 he

/-- `hbStep` only appends commands, and every appended command is a
PLAY_HEARTBEAT or a heartbeat SET_VOLUME tagged with the processed
region's id. -/
theorem hbStep_cmds_append (fd : FaceData) (result : InteractionResult)
    (pathOk : String → Bool) (now : ℚ) (dwell : List String)
    (acc : List AudioCommand × List (String × ℚ) × List (String × ℚ))
    (region : Region) :
    ∃ newCmds : List AudioCommand,
      (hbStep fd result pathOk now dwell acc region).1 = acc.1 ++ newCmds ∧
      ∀ c ∈ newCmds,
        (∃ f ms lp bb,
          c = AudioCommand.PLAY_HEARTBEAT f region.id ms lp bb) ∨
        (∃ v, c = AudioCommand.SET_VOLUME ("heartbeat_" ++ region.id) v) := by
  obtain ⟨cmds, started, last_sent⟩ := acc
  rcases hhb : region.heartbeat with _ | hb
  · refine ⟨[], ?_, by simp⟩
    simp [hbStep, hhb]
  · by_cases hf : hb.file = ""
    · refine ⟨[], ?_, by simp⟩
      simp [hbStep, hhb, hf]
    · by_cases hs : region.id ∈ dwell ∧ alistGet region.id started = none ∧
          pathOk hb.file = true
      · have hstep : hbStep fd result pathOk now dwell
            (cmds, started, last_sent) region =
            (let cmds1 := cmds ++ [AudioCommand.PLAY_HEARTBEAT hb.file
               region.id hb.fade_in_ms hb.loop hb.bass_boost]
             let started1 := alistInsert region.id now started
             match alistGet region.id started1 with
             | none => (cmds1, started1, last_sent)
             | some t0 =>
                 if now - t0 < hb.fade_in_ms / 1000 then
                   (cmds1, started1, last_sent)
                 else
                   let hb_vol := hbVolume hb fd result
                   let prev_hb_vol :=
                     (alistGet ("heartbeat_" ++ region.id) last_sent).getD (-1)
                   if |hb_vol - prev_hb_vol| ≤ VOLUME_EPSILON then
                     (cmds1, started1, last_sent)
                   else
                     (cmds1 ++ [AudioCommand.SET_VOLUME
                        ("heartbeat_" ++ region.id) hb_vol],
                      started1,
                      alistInsert ("heartbeat_" ++ region.id) hb_vol
                        last_sent)) := by
          simp only [hbStep, hhb, if_neg hf, if_pos hs]
        rw [hstep]
        rcases halist : alistGet region.id (alistInsert region.id now started)
          with _ | t0
        · simp only [halist]
          refine ⟨[AudioCommand.PLAY_HEARTBEAT hb.file region.id
            hb.fade_in_ms hb.loop hb.bass_boost], by simp, ?_⟩
          intro c hc
          simp only [List.mem_singleton] at hc
          exact Or.inl ⟨hb.file, hb.fade_in_ms, hb.loop, hb.bass_boost, hc⟩
        · simp only [halist]
          split_ifs with hg hc
          · refine ⟨[AudioCommand.PLAY_HEARTBEAT hb.file region.id
              hb.fade_in_ms hb.loop hb.bass_boost], by simp, ?_⟩
            intro c hc2
            simp only [List.mem_singleton] at hc2
            exact Or.inl ⟨hb.file, hb.fade_in_ms, hb.loop, hb.bass_boost, hc2⟩
          · refine ⟨[AudioCommand.PLAY_HEARTBEAT hb.file region.id
              hb.fade_in_ms hb.loop hb.bass_boost], by simp, ?_⟩
            intro c hc2
            simp only [List.mem_singleton] at hc2
            exact Or.inl ⟨hb.file, hb.fade_in_ms, hb.loop, hb.bass_boost, hc2⟩
          · refine ⟨[AudioCommand.PLAY_HEARTBEAT hb.file region.id
              hb.fade_in_ms hb.loop hb.bass_boost,
              AudioCommand.SET_VOLUME ("heartbeat_" ++ region.id)
                (hbVolume hb fd result)], by simp, ?_⟩
            intro c hc2
            rcases List.mem_cons.mp hc2 with hc3 | hc3
            · exact Or.inl ⟨hb.file, hb.fade_in_ms, hb.loop, hb.bass_boost, hc3⟩
            · simp only [List.mem_singleton] at hc3
              exact Or.inr ⟨hbVolume hb fd result, hc3⟩
      · have hstep : hbStep fd result pathOk now dwell
            (cmds, started, last_sent) region =
            (match alistGet region.id started with
             | none => (cmds, started, last_sent)
             | some t0 =>
                 if now - t0 < hb.fade_in_ms / 1000 then
                   (cmds, started, last_sent)
                 else
                   let hb_vol := hbVolume hb fd result
                   let prev_hb_vol :=
                     (alistGet ("heartbeat_" ++ region.id) last_sent).getD (-1)
                   if |hb_vol - prev_hb_vol| ≤ VOLUME_EPSILON then
                     (cmds, started, last_sent)
                   else
                     (cmds ++ [AudioCommand.SET_VOLUME
                        ("heartbeat_" ++ region.id) hb_vol],
                      started,
                      alistInsert ("heartbeat_" ++ region.id) hb_vol
                        last_sent)) := by
          simp only [hbStep, hhb, if_neg hf, if_neg hs]
        rw [hstep]
        rcases halist : alistGet region.id started with _ | t0
        · simp only [halist]
          exact ⟨[], by simp, by simp⟩
        · simp only [halist]
          split_ifs with hg hc
          · exact ⟨[], by simp, by simp⟩
          · exact ⟨[], by simp, by simp⟩
          · refine ⟨[AudioCommand.SET_VOLUME ("heartbeat_" ++ region.id)
              (hbVolume hb fd result)], by simp, ?_⟩
            intro c hc2
            simp only [List.mem_singleton] at hc2
            exact Or.inr ⟨hbVolume hb fd result, hc2⟩

/-- During the fade-in grace period, `hbStep` on an already-started
heartbeat region is a no-op. -/
theorem hbStep_grace_skips (fd : FaceData) (result : InteractionResult)
    (pathOk : String → Bool) (now : ℚ) (dwell : List String)
    (acc : List AudioCommand × List (String × ℚ) × List (String × ℚ))
    (region : Region) (hb : HeartbeatConfig) (t0 : ℚ)
    (hhb : region.heartbeat = some hb) (hf : hb.file ≠ "")
    (hstart : alistGet region.id acc.2.1 = some t0)
    (hgrace : now - t0 < hb.fade_in_ms / 1000) :
    hbStep fd result pathOk now dwell acc region = acc := by
  obtain ⟨cmds, started, last_sent⟩ := acc
  simp only at hstart
  have hns : ¬(region.id ∈ dwell ∧ alistGet region.id started = none ∧
      pathOk hb.file = true) := by
    rintro ⟨_, hnone, _⟩
    rw [hstart] at hnone
    exact Option.noConfusion hnone
  simp only [hbStep, hhb, if_neg hf, if_neg hns]
  simp only [hstart]
  rw [if_pos hgrace]

/-- Past the grace period, with a meaningful volume change, `hbStep`
emits the distance-modulated SET_VOLUME for the heartbeat stream. -/
theorem hbStep_emits (fd : FaceData) (result : InteractionResult)
    (pathOk : String → Bool) (now : ℚ) (dwell : List String)
    (acc : List AudioCommand × List (String × ℚ) × List (String × ℚ))
    (region : Region) (hb : HeartbeatConfig) (t0 : ℚ)
    (hhb : region.heartbeat = some hb) (hf : hb.file ≠ "")
    (hstart : alistGet region.id acc.2.1 = some t0)
    (hgrace : ¬ now - t0 < hb.fade_in_ms / 1000)
    (hchange : ¬ |hbVolume hb fd result -
      (alistGet ("heartbeat_" ++ region.id) acc.2.2).getD (-1)| ≤
        VOLUME_EPSILON) :
    AudioCommand.SET_VOLUME ("heartbeat_" ++ region.id)
      (hbVolume hb fd result) ∈
      (hbStep fd result pathOk now dwell acc region).1 := by
  obtain ⟨cmds, started, last_sent⟩ := acc
  simp only at hstart hchange
  have hns : ¬(region.id ∈ dwell ∧ alistGet region.id started = none ∧
      pathOk hb.file = true) := by
    rintro ⟨_, hnone, _⟩
    rw [hstart] at hnone
    exact Option.noConfusion hnone
  simp only [hbStep, hhb, if_neg hf, if_neg hns]
  simp only [hstart]
  rw [if_neg hgrace, if_neg hchange]
  simp

/-- `hbStep` on a region with a different id does not disturb another
region's start record or heartbeat volume record. -/
theorem hbStep_started_last (fd : FaceData) (result : InteractionResult)
    (pathOk : String → Bool) (now : ℚ) (dwell : List String)
    (acc : List AudioCommand × List (String × ℚ) × List (String × ℚ))
    (region : Region) (rid : String) (hne : region.id ≠ rid) :
    alistGet rid (hbStep fd result pathOk now dwell acc region).2.1 =
      alistGet rid acc.2.1 ∧
    alistGet ("heartbeat_" ++ rid)
        (hbStep fd result pathOk now dwell acc region).2.2 =
      alistGet ("heartbeat_" ++ rid) acc.2.2 := by
  have hmne : ("heartbeat_" ++ rid) ≠ ("heartbeat_" ++ region.id) :=
    fun hh => hne (heartbeat_name_inj rid region.id hh).symm
  obtain ⟨cmds, started, last_sent⟩ := acc
  rcases hhb : region.heartbeat with _ | hb
  · simp [hbStep, hhb]
  · by_cases hf : hb.file = ""
    · simp [hbStep, hhb, hf]
    · by_cases hs : region.id ∈ dwell ∧ alistGet region.id started = none ∧
          pathOk hb.file = true
      · have hstep : hbStep fd result pathOk now dwell
            (cmds, started, last_sent) region =
            (let cmds1 := cmds ++ [AudioCommand.PLAY_HEARTBEAT hb.file
               region.id hb.fade_in_ms hb.loop hb.bass_boost]
             let started1 := alistInsert region.id now started
             match alistGet region.id started1 with
             | none => (cmds1, started1, last_sent)
             | some t0 =>
                 if now - t0 < hb.fade_in_ms / 1000 then
                   (cmds1, started1, last_sent)
                 else
                   let hb_vol := hbVolume hb fd result
                   let prev_hb_vol :=
                     (alistGet ("heartbeat_" ++ region.id) last_sent).getD (-1)
                   if |hb_vol - prev_hb_vol| ≤ VOLUME_EPSILON then
                     (cmds1, started1, last_sent)
                   else
                     (cmds1 ++ [AudioCommand.SET_VOLUME
                        ("heartbeat_" ++ region.id) hb_vol],
                      started1,
                      alistInsert ("heartbeat_" ++ region.id) hb_vol
                        last_sent)) := by
          simp only [hbStep, hhb, if_neg hf, if_pos hs]
        rw [hstep]
        rcases halist : alistGet region.id (alistInsert region.id now started)
          with _ | t0
        · simp only [halist]
          refine ⟨?_, ?_⟩ <;>
            first
              | trivial
              | exact alistGet_insert_ne rid region.id (Ne.symm hne) now started
              | exact alistGet_insert_ne _ _ hmne _ last_sent
        · simp only [halist]
          split_ifs with hg hc <;>
            refine ⟨?_, ?_⟩ <;>
            first
              | trivial
              | exact alistGet_insert_ne rid region.id (Ne.symm hne) now started
              | exact alistGet_insert_ne _ _ hmne _ last_sent
      · have hstep : hbStep fd result pathOk now dwell
            (cmds, started, last_sent) region =
            (match alistGet region.id started with
             | none => (cmds, started, last_sent)
             | some t0 =>
                 if now - t0 < hb.fade_in_ms / 1000 then
                   (cmds, started, last_sent)
                 else
                   let hb_vol := hbVolume hb fd result
                   let prev_hb_vol :=
                     (alistGet ("heartbeat_" ++ region.id) last_sent).getD (-1)
                   if |hb_vol - prev_hb_vol| ≤ VOLUME_EPSILON then
                     (cmds, started, last_sent)
                   else
                     (cmds ++ [AudioCommand.SET_VOLUME
                        ("heartbeat_" ++ region.id) hb_vol],
                      started,
                      alistInsert ("heartbeat_" ++ region.id) hb_vol
                        last_sent)) := by
          simp only [hbStep, hhb, if_neg hf, if_neg hs]
        rw [hstep]
        rcases halist : alistGet region.id started with _ | t0
        · simp only [halist]
          refine ⟨?_, ?_⟩ <;> trivial
        · simp only [halist]
          split_ifs with hg hc <;>
            refine ⟨?_, ?_⟩ <;>
            first
              | trivial
              | exact alistGet_insert_ne _ _ hmne _ last_sent

/-- Commands accumulated before a heartbeat fold survive it. -/
theorem hbFold_cmds_mono (fd : FaceData) (result : InteractionResult)
    (pathOk : String → Bool) (now : ℚ) (dwell : List String) :
    ∀ (regs : List Region)
      (acc : List AudioCommand × List (String × ℚ) × List (String × ℚ))
      (c : AudioCommand), c ∈ acc.1 →
      c ∈ (regs.foldl (hbStep fd result pathOk now dwell) acc).1 := by
  intro regs
  induction regs with
  | nil => intro acc c hc; exact hc
  | cons r rest ih =>
      intro acc c hc
      rw [List.foldl_cons]
      apply ih
      obtain ⟨newCmds, heq, _⟩ :=
        hbStep_cmds_append fd result pathOk now dwell acc r
      rw [heq]
      exact List.mem_append_left _ hc

/-- Over a region pass, no SET_VOLUME for a started heartbeat inside
its fade-in grace period is ever added. -/
theorem hbFold_no_setvol (fd : FaceData) (result : InteractionResult)
    (pathOk : String → Bool) (now : ℚ) (dwell : List String) (rid : String)
    (hb : HeartbeatConfig) (t0 : ℚ)
    (hgrace : now - t0 < hb.fade_in_ms / 1000) :
    ∀ (regs : List Region)
      (acc : List AudioCommand × List (String × ℚ) × List (String × ℚ)),
      (∀ r ∈ regs, r.id = rid → r.heartbeat = some hb) →
      alistGet rid acc.2.1 = some t0 →
      (∀ v, AudioCommand.SET_VOLUME ("heartbeat_" ++ rid) v ∉ acc.1) →
      ∀ v, AudioCommand.SET_VOLUME ("heartbeat_" ++ rid) v ∉
        (regs.foldl (hbStep fd result pathOk now dwell) acc).1 := by
  intro regs
  induction regs with
  | nil => intro acc _ _ habs v; exact habs v
  | cons r rest ih =>
      intro acc hH hstart habs v
      rw [List.foldl_cons]
      by_cases hr : r.id = rid
      · have hhb := hH r (List.mem_cons_self r rest) hr
        by_cases hf : hb.file = ""
        · have hskip : hbStep fd result pathOk now dwell acc r = acc := by
            obtain ⟨cmds, started, last_sent⟩ := acc
            simp [hbStep, hhb, hf]
          rw [hskip]
          exact ih acc (fun x hx => hH x (List.mem_cons_of_mem r hx)) hstart
            habs v
        · have hstart2 : alistGet r.id acc.2.1 = some t0 := by
            rw [hr]
            exact hstart
          have hskip := hbStep_grace_skips fd result pathOk now dwell acc r
            hb t0 hhb hf hstart2 hgrace
          rw [hskip]
          exact ih acc (fun x hx => hH x (List.mem_cons_of_mem r hx)) hstart
            habs v
      · obtain ⟨newCmds, heq, htags⟩ :=
          hbStep_cmds_append fd result pathOk now dwell acc r
        have hpres := hbStep_started_last fd result pathOk now dwell acc r
          rid hr
        refine ih (hbStep fd result pathOk now dwell acc r)
          (fun x hx => hH x (List.mem_cons_of_mem r hx)) ?_ ?_ v
        · rw [hpres.1]
          exact hstart
        · intro v2 hv2
          rw [heq] at hv2
          rcases List.mem_append.mp hv2 with hv3 | hv3
          · exact habs v2 hv3
          · rcases htags _ hv3 with ⟨f, ms, lp, bb, hctor⟩ | ⟨v3, hctor⟩
            · exact AudioCommand.noConfusion hctor
            · have hname : ("heartbeat_" ++ rid) = ("heartbeat_" ++ r.id) := by
                injection hctor with h1 h2
              exact hr ((heartbeat_name_inj rid r.id hname).symm)

/-- Over a region pass, a started heartbeat past its grace period with
a meaningful volume change gets its SET_VOLUME emitted. -/
theorem hbFold_emits (fd : FaceData) (result : InteractionResult)
    (pathOk : String → Bool) (now : ℚ) (dwell : List String)
    (region : Region) (hb : HeartbeatConfig) (t0 : ℚ) (lsv : Option ℚ)
    (hhb : region.heartbeat = some hb) (hf : hb.file ≠ "")
    (hgrace : ¬ now - t0 < hb.fade_in_ms / 1000)
    (hchange : ¬ |hbVolume hb fd result - lsv.getD (-1)| ≤ VOLUME_EPSILON) :
    ∀ (regs : List Region)
      (acc : List AudioCommand × List (String × ℚ) × List (String × ℚ)),
      (∀ r ∈ regs, r.id = region.id → r = region) →
      region ∈ regs →
      alistGet region.id acc.2.1 = some t0 →
      alistGet ("heartbeat_" ++ region.id) acc.2.2 = lsv →
      AudioCommand.SET_VOLUME ("heartbeat_" ++ region.id)
        (hbVolume hb fd result) ∈
        (regs.foldl (hbStep fd result pathOk now dwell) acc).1 := by
  intro regs
  induction regs with
  | nil =>
      intro acc _ hmem
      exact absurd hmem (List.not_mem_nil region)
  | cons r rest ih =>
      intro acc hH hmem hstart hlsv
      rw [List.foldl_cons]
      by_cases hr : r.id = region.id
      · have hreq : r = region := hH r (List.mem_cons_self r rest) hr
        subst hreq
        have hchange2 : ¬ |hbVolume hb fd result -
            (alistGet ("heartbeat_" ++ r.id) acc.2.2).getD (-1)| ≤
              VOLUME_EPSILON := by
          rw [hlsv]
          exact hchange
        have hemit := hbStep_emits fd result pathOk now dwell acc r hb t0
          hhb hf hstart hgrace hchange2
        exact hbFold_cmds_mono fd result pathOk now dwell rest _ _ hemit
      · rcases List.mem_cons.mp hmem with hre | hre
        · exact absurd (congrArg Region.id hre.symm) hr
        · have hpres := hbStep_started_last fd result pathOk now dwell acc r
            region.id hr
          refine ih (hbStep fd result pathOk now dwell acc r)
            (fun x hx => hH x (List.mem_cons_of_mem r hx)) hre ?_ ?_
          · rw [hpres.1]
            exact hstart
          · rw [hpres.2]
            exact hlsv

/-- Every command of the heartbeat stop loop is a STOP_HEARTBEAT. -/
theorem hbStopLoop_cmds (started : List (String × ℚ)) (dwell : List String)
    (last_sent : List (String × ℚ)) :
    ∀ c ∈ (hbStopLoop started dwell last_sent).1,
      ∃ rid fm, c = AudioCommand.STOP_HEARTBEAT rid fm := by
  intro c hc
  simp only [hbStopLoop, List.mem_map] at hc
  obtain ⟨kv, _, rfl⟩ := hc
  exact ⟨kv.1, 800, rfl⟩

/-- In ENGAGED or CLOSE_INTERACTION on an image with regions, the
continuous-update commands decompose into ambient SET_VOLUMEs, the
heartbeat pass over the untouched heartbeat dictionaries, and the stop
loop. -/
theorem continuousUpdates_decomp (state : InteractionState) (fd : FaceData)
    (result : InteractionResult) (im : ImageMeta) (pathOk : String → Bool)
    (ambient_started : Bool) (now : ℚ) (cs : ContState)
    (hnotIW : ¬ (state = InteractionState.IDLE ∨
      state = InteractionState.WITHDRAWING))
    (hEC : state = InteractionState.ENGAGED ∨
      state = InteractionState.CLOSE_INTERACTION)
    (hne : im.regions.isEmpty = false) :
    ∃ ambientCmds : List AudioCommand,
      (∀ c ∈ ambientCmds, ∃ v, c = AudioCommand.SET_VOLUME "ambient" v) ∧
      (continuousUpdates state fd result (some im) pathOk ambient_started
        now cs).1 =
        ambientCmds ++
        ((im.regions.foldl
            (hbStep fd result pathOk now result.dwell_regions)
            ([], cs.started_heartbeats, cs.last_sent_hb_volumes)).1 ++
          (hbStopLoop
            (im.regions.foldl
              (hbStep fd result pathOk now result.dwell_regions)
              ([], cs.started_heartbeats, cs.last_sent_hb_volumes)).2.1
            result.dwell_regions
            (im.regions.foldl
              (hbStep fd result pathOk now result.dwell_regions)
              ([], cs.started_heartbeats, cs.last_sent_hb_volumes)).2.2).1) := by
  simp only [continuousUpdates, if_neg hnotIW, if_pos hEC, hne]
  rcases hamb : im.ambient with _ | amb
  · refine ⟨[], by simp, ?_⟩
    simp only [hamb]
    split_ifs <;>
      simp [apply_ite ContState.started_heartbeats,
        apply_ite ContState.last_sent_hb_volumes]
  · by_cases hst : ambient_started
    · by_cases hfile : amb.file ≠ ""
      · simp only [hamb, if_pos hst, if_pos hfile]
        set volume := (match amb.fade_curve with
          | some f => f fd.face_distance_cm amb.fade_in_distance_cm
              amb.fade_in_complete_cm
          | none => 3/10 + 7/10 * result.distance_factor : ℚ) with hvd
        split_ifs with hgaze hvol hvol
        · refine ⟨[AudioCommand.SET_VOLUME "ambient" volume], by simp, ?_⟩
          simp [apply_ite ContState.started_heartbeats,
            apply_ite ContState.last_sent_hb_volumes]
        · refine ⟨[], by simp, ?_⟩
          simp [apply_ite ContState.started_heartbeats,
            apply_ite ContState.last_sent_hb_volumes]
        · refine ⟨[AudioCommand.SET_VOLUME "ambient" volume], by simp, ?_⟩
          simp [apply_ite ContState.started_heartbeats,
            apply_ite ContState.last_sent_hb_volumes]
        · refine ⟨[], by simp, ?_⟩
          simp [apply_ite ContState.started_heartbeats,
            apply_ite ContState.last_sent_hb_volumes]
      · simp only [hamb, if_pos hst, if_neg hfile]
        refine ⟨[], by simp, ?_⟩
        split_ifs <;>
          simp [apply_ite ContState.started_heartbeats,
            apply_ite ContState.last_sent_hb_volumes]
    · simp only [hamb, if_neg hst]
      refine ⟨[], by simp, ?_⟩
      split_ifs <;>
        simp [apply_ite ContState.started_heartbeats,
          apply_ite ContState.last_sent_hb_volumes]

/-- C8: for a started heartbeat region, a tick less than `fade_in_ms`
after the recorded start time emits no SET_VOLUME for that heartbeat
stream; once the grace period has elapsed and the distance-curve volume
changed beyond the epsilon, the SET_VOLUME modulation is emitted. -/
theorem heartbeat_fade_grace (state : InteractionState) (fd : FaceData)
    (result : InteractionResult) (im : ImageMeta) (pathOk : String → Bool)
    (ambient_started : Bool) (now : ℚ) (cs : ContState) (region : Region)
    (hb : HeartbeatConfig) (t0 : ℚ)
    (hstate : state = InteractionState.ENGAGED ∨
      state = InteractionState.CLOSE_INTERACTION)
    (hreg : region ∈ im.regions)
    (hhb : region.heartbeat = some hb)
    (hfile : hb.file ≠ "")
    (hn : (im.regions.map Region.id).Nodup)
    (hstart : alistGet region.id cs.started_heartbeats = some t0) :
    (now - t0 < hb.fade_in_ms / 1000 →
      ∀ v, AudioCommand.SET_VOLUME ("heartbeat_" ++ region.id) v ∉
        (continuousUpdates state fd result (some im) pathOk ambient_started
          now cs).1) ∧
    (¬ now - t0 < hb.fade_in_ms / 1000 →
      ¬ |hbVolume hb fd result -
        ((alistGet ("heartbeat_" ++ region.id)
          cs.last_sent_hb_volumes).getD (-1))| ≤ VOLUME_EPSILON →
      AudioCommand.SET_VOLUME ("heartbeat_" ++ region.id)
        (hbVolume hb fd result) ∈
        (continuousUpdates state fd result (some im) pathOk ambient_started
          now cs).1) := by
  have hnotIW : ¬ (state = InteractionState.IDLE ∨
      state = InteractionState.WITHDRAWING) := by
    rcases hstate with h | h <;> rw [h] <;> rintro (hc | hc) <;>
      exact InteractionState.noConfusion hc
  have hne : im.regions.isEmpty = false := by
    cases hregs : im.regions with
    | nil =>
        rw [hregs] at hreg
        exact absurd hreg (List.not_mem_nil region)
    | cons a l => rfl
  have huniq : ∀ r ∈ im.regions, r.id = region.id → r = region := by
    intro r hrmem he
    exact region_id_unique im.regions hn r hrmem region hreg he
  have hHhb : ∀ r ∈ im.regions, r.id = region.id → r.heartbeat = some hb := by
    intro r hrmem he
    rw [huniq r hrmem he]
    exact hhb
  obtain ⟨ambientCmds, hambC, hdec⟩ := continuousUpdates_decomp state fd
    result im pathOk ambient_started now cs hnotIW hstate hne
  constructor
  · intro hg v hv
    rw [hdec] at hv
    rcases List.mem_append.mp hv with hv2 | hv2
    · obtain ⟨v2, hc⟩ := hambC _ hv2
      have hname : ("heartbeat_" ++ region.id) = "ambient" := by
        injection hc with h1 h2
      exact ambient_ne_heartbeat region.id hname.symm
    · rcases List.mem_append.mp hv2 with hv3 | hv3
      · exact hbFold_no_setvol fd result pathOk now result.dwell_regions
          region.id hb t0 hg im.regions
          ([], cs.started_heartbeats, cs.last_sent_hb_volumes)
          hHhb hstart (fun v2 => List.not_mem_nil _) v hv3
      · obtain ⟨rid2, fm, hc⟩ := hbStopLoop_cmds _ _ _ _ hv3
        exact AudioCommand.noConfusion hc
  · intro hg hch
    rw [hdec]
    refine List.mem_append_right _ (List.mem_append_left _ ?_)
    exact hbFold_emits fd result pathOk now result.dwell_regions region hb
      t0 (alistGet ("heartbeat_" ++ region.id) cs.last_sent_hb_volumes)
      hhb hfile hg hch im.regions
      ([], cs.started_heartbeats, cs.last_sent_hb_volumes)
      huniq hreg hstart rfl

/-- Concrete instantiation of `heartbeat_fade_grace`: the sample
heartbeat (fade-in 2000 ms, started at 0) is silent from SET_VOLUME at
`now = 1` and modulated at `now = 3`. -/
theorem heartbeat_fade_grace_witness :
    (∀ v, AudioCommand.SET_VOLUME ("heartbeat_" ++ heartbeatRegion.id) v ∉
      (continuousUpdates InteractionState.ENGAGED centreGazeFace sampleResult
        (some heartbeatImage) (fun _ => true) false 1 startedContState).1) ∧
    AudioCommand.SET_VOLUME ("heartbeat_" ++ heartbeatRegion.id)
      (hbVolume sampleHeartbeat centreGazeFace sampleResult) ∈
      (continuousUpdates InteractionState.ENGAGED centreGazeFace sampleResult
        (some heartbeatImage) (fun _ => true) false 3 startedContState).1 := by
  have hvol : hbVolume sampleHeartbeat centreGazeFace sampleResult = 5/12 := by
    norm_num [hbVolume, sampleHeartbeat, linear_curve, centreGazeFace,
      sampleResult, FaceData.default]
  constructor
  · exact (heartbeat_fade_grace InteractionState.ENGAGED centreGazeFace
      sampleResult heartbeatImage (fun _ => true) false 1 startedContState
      heartbeatRegion sampleHeartbeat 0
      (Or.inl rfl)
      (by simp [heartbeatImage])
      rfl
      (by simp only [sampleHeartbeat]; decide)
      (by simp [heartbeatImage, heartbeatRegion])
      (by simp [startedContState, ContState.init, alistGet,
        heartbeatRegion])).1
      (by norm_num [sampleHeartbeat])
  · exact (heartbeat_fade_grace InteractionState.ENGAGED centreGazeFace
      sampleResult heartbeatImage (fun _ => true) false 3 startedContState
      heartbeatRegion sampleHeartbeat 0
      (Or.inl rfl)
      (by simp [heartbeatImage])
      rfl
      (by simp only [sampleHeartbeat]; decide)
      (by simp [heartbeatImage, heartbeatRegion])
      (by simp [startedContState, ContState.init, alistGet,
        heartbeatRegion])).2
      (by norm_num [sampleHeartbeat])
      (by
        rw [hvol]
        have hnone : alistGet ("heartbeat_" ++ heartbeatRegion.id)
            startedContState.last_sent_hb_volumes = none := rfl
        rw [hnone]
        simp only [Option.getD]
        rw [show (5/12 : ℚ) - (-1) = 17/12 by norm_num,
          abs_of_pos (by norm_num : (0:ℚ) < 17/12)]
        norm_num [VOLUME_EPSILON])

/-- Concrete instantiation of `seqlock_round_trip`. -/
theorem seqlock_round_trip_witness :
    ((ShmState.init.write
        { FaceData.default with frame_counter := 7, timestamp_ns := 5 } 9).read
      { last_frame := none }).1 =
      some { FaceData.default with frame_counter := 7, timestamp_ns := 5 } ∧
    ((ShmState.init.write
        { FaceData.default with frame_counter := 7, timestamp_ns := 5 } 9).read
      (((ShmState.init.write
          { FaceData.default with frame_counter := 7, timestamp_ns := 5 } 9).read
        { last_frame := none }).2)).1 = none ∧
    ((3 : Nat) % 2 = 1 →
      (readObserved 3 4 FaceData.default { last_frame := none }).1 = none) ∧
    ((3 : Nat) ≠ 4 →
      (readObserved 3 4 FaceData.default { last_frame := none }).1 = none) ∧
    (ReaderState.last_frame { last_frame := none } =
        some FaceData.default.frame_counter →
      (readObserved 3 4 FaceData.default { last_frame := none }).1 = none) := by
  exact seqlock_round_trip ShmState.init
    { FaceData.default with frame_counter := 7, timestamp_ns := 5 } 9
    { last_frame := none } 3 4 FaceData.default { last_frame := none }
    (by decide) (by decide) (by decide)

end Soulframe
